import Mathlib

/-!
Verification of the Dual Path Monitoring ("DPM") programs against their
specification.  The Python sources (DPM.py, cid.py, mymodem.py,
scanEVL4log.py, telnetEVL4.py) are shallowly embedded below:

* Python dictionaries (which preserve insertion order) are modelled as
  association lists; assignment `d[k] = v` replaces the value in place when
  the key exists and appends the pair otherwise (`dictInsert`).
* `time.time_ns()` / `datetime.timestamp` values are passed as explicit
  natural-number parameters; `int(x / 1000000000)` on a non-negative
  timestamp is integer division, and `abs(a - b)` on such timestamps is
  `Nat.dist`.
* Python exceptions are modelled with `Option`/`Except`: a helper that can
  raise returns `none`/`.error`, and a `try/except` block is a `match`.
* CPython float arithmetic in the budget gate is modelled exactly over `ℚ`,
  and Python `round` (banker's rounding, round-half-to-even) is `pyRound`.
-/

/-- Python `str.strip(chars)` on a list of characters: drop characters
belonging to `cs` from both ends. -/
def pyStripL (cs : List Char) (l : List Char) : List Char :=
  ((l.dropWhile (cs.contains ·)).reverse.dropWhile (cs.contains ·)).reverse

/-- Python `str.strip(chars)`: the argument is a set of characters to be
removed from both ends (not a prefix/suffix string). -/
def pyStrip (chars : String) (s : String) : String :=
  ⟨pyStripL chars.data s.data⟩

/-- Python `str.split(sep)` for a one-character separator, on lists of
characters.  `''.split(sep)` is `['']`, matching Python. -/
def pySplitCh (sep : Char) : List Char → List (List Char)
  | [] => [[]]
  | c :: cs =>
    if c = sep then [] :: pySplitCh sep cs
    else
      match pySplitCh sep cs with
      | [] => [[c]]
      | h :: t => (c :: h) :: t

/-- Python `str.split(sep)` for a one-character separator. -/
def pySplit (sep : Char) (s : String) : List String :=
  (pySplitCh sep s.data).map (fun l => ⟨l⟩)

/-- Python slicing `s[a:b]` for `0 ≤ a ≤ b` (as used on the 10-digit CID). -/
def pySlice (a b : Nat) (s : String) : String :=
  ⟨(s.data.drop a).take (b - a)⟩

/-- Python `sub in s` (substring containment). -/
def hasSubstr (sub s : String) : Bool :=
  decide (sub.data <:+: s.data)

/-- Python `str.startswith(p)`. -/
def pyStartsWith (p s : String) : Bool :=
  p.data.isPrefixOf s.data

/-- The value of one hexadecimal digit, as accepted by Python `int(_, 16)`. -/
def hexDigitVal (c : Char) : Option Nat :=
  if '0' ≤ c ∧ c ≤ '9' then some (c.toNat - '0'.toNat)
  else if 'a' ≤ c ∧ c ≤ 'f' then some (c.toNat - 'a'.toNat + 10)
  else if 'A' ≤ c ∧ c ≤ 'F' then some (c.toNat - 'A'.toNat + 10)
  else none

/-- Python `int(s, 16)` on a plain string of hexadecimal digits;
`none` models the `ValueError` raised on any other input. -/
def pyParseHex (l : List Char) : Option Nat :=
  match l with
  | [] => none
  | _ =>
    l.foldl
      (fun acc c =>
        match acc, hexDigitVal c with
        | some a, some d => some (a * 16 + d)
        | _, _ => none)
      (some 0)

/-- Association-list lookup, i.e. Python `d[k]` returning `none` for a
`KeyError`. -/
def lookupTab {α : Type} (tab : List (String × α)) (k : String) : Option α :=
  (tab.find? (fun e => e.1 == k)).map (fun e => e.2)

/-- Python dictionary assignment `d[k] = v` for a `Nat`-keyed dictionary:
replace in place if the key exists, else append. -/
def dictInsert {α : Type} (k : Nat) (v : α) : List (Nat × α) → List (Nat × α)
  | [] => [(k, v)]
  | (k2, v2) :: rest =>
    if k2 = k then (k, v) :: rest else (k2, v2) :: dictInsert k v rest

/-- The keys kept by the pruning scheme: of the sorted key list, drop the
`length - maxHistory` smallest keys (when over capacity). -/
def pruneKeep (maxHistory : Nat) (keys : List Nat) : List Nat :=
  keys.drop (if keys.length > maxHistory then keys.length - maxHistory else 0)

/-- The pruning scheme shared by `TelnetEVL4.pruneAll`,
`ScanEVL4Log.doPruning` and `MyModem.doPruning`: sort the keys, and pop the
`length - maxHistory` smallest ones (when the history is over capacity). -/
def pruneByKey {α : Type} (maxHistory : Nat) (key : α → Nat) (l : List α) : List α :=
  l.filter (fun e =>
    (pruneKeep maxHistory (List.insertionSort (· ≤ ·) (l.map key))).contains (key e))

/-- Python `round` on an exact rational: round half to even. -/
def pyRound (q : ℚ) : ℤ :=
  let f := ⌊q⌋
  let frac := q - f
  if frac < 1 / 2 then f
  else if 1 / 2 < frac then f + 1
  else if 2 ∣ f then f else f + 1

/-- Python `s.replace('~', '')` specialised to the exclamation mark, as in
cid.py line 453: remove every occurrence. -/
def removeBang (s : String) : String :=
  ⟨s.data.filter (fun c => c ≠ '!')⟩

/-- A string that contains no exclamation mark. -/
abbrev noBang (s : String) : Prop := '!' ∉ s.data

namespace DecodeCID

/-- Default zone descriptions dictionary of `DecodeCID` (cid.py `zones`). -/
def zones : List (String × String) := [
  ("001", "zone-1"),
  ("002", "zone-2"),
  ("003", "zone-3"),
  ("004", "zone-4"),
  ("005", "zone-5"),
  ("006", "zone-6"),
  ("007", "zone-7"),
  ("008", "zone-8"),
  ("009", "zone-9"),
  ("010", "zone-10"),
  ("011", "zone-11"),
  ("012", "zone-12"),
  ("013", "zone-13"),
  ("014", "zone-14"),
  ("015", "zone-15"),
  ("016", "zone-16")
]

/-- Default user descriptions dictionary of `DecodeCID` (cid.py `users`). -/
def users : List (String × String) := [
  ("001", "Installer"),
  ("002", "Master"),
  ("003", "user-3"),
  ("004", "user-4"),
  ("005", "user-5"),
  ("006", "user-6"),
  ("007", "user-7"),
  ("008", "user-8"),
  ("009", "user-9"),
  ("010", "user-10"),
  ("011", "user-11"),
  ("012", "user-12")
]

/-- Event category dictionary `CID_EventCategory` of cid.py. -/
def CID_EventCategory : List (String × String) := [
  ("A", "Medical Alarms"),
  ("B", "Fire Alarms"),
  ("C", "Panic Alarms"),
  ("D", "Burglar Alarms"),
  ("E", "General Alarm"),
  ("F", "24 Hour Non-Burglary"),
  ("G", "Fire Supervisory"),
  ("H", "System Troubles"),
  ("I", "Sounder/Relay Trouble"),
  ("J", "System Peripheral Trouble"),
  ("K", "Communication Troubles"),
  ("L", "Protection Loop"),
  ("M", "Sensor Trouble"),
  ("N", "Open/Close"),
  ("O", "Remote Access"),
  ("P", "Access Control"),
  ("Q", "System Disables"),
  ("R", "Sounder/Relay Disables"),
  ("S", "System Peripheral Disables"),
  ("T", "Communication Disables"),
  ("U", "Bypasses"),
  ("V", "Test/Miscellaneous"),
  ("W", "Event Log"),
  ("X", "Scheduling"),
  ("Y", "Personnel Monitoring"),
  ("Z", "Miscellaneous"),
  ("*", "Customized")
]

/-- Event qualifier dictionary of dictionaries `CID_EventQualifiers` of
cid.py.  The inner keys are the one-character event-qualifier digits. -/
def CID_EventQualifiers : List (String × List (Char × String)) := [
  ("a", [('1', "New event"), ('3', "Restore event"), ('6', "Duplicate message")]),
  ("b", [('1', "Open event"), ('3', "Close event"), ('6', "Duplicate message")]),
  ("c", [('1', "Start event"), ('3', "End event"), ('6', "Duplicate message")]),
  ("d", [('1', "Activation event"), ('3', "Deactivation event"), ('6', "Duplicate message")])
]

/-- Event code table `CID_EventCodes` of cid.py: event code to
(category, description, agent kind, qualifier selector). -/
def CID_EventCodes : List (String × String × String × String × String) := [
  ("100", "A", "Medical Emergency", "Z", "a"),
  ("101", "A", "Pendant Transmitter", "Z", "a"),
  ("102", "A", "Failed to report in", "Z", "a"),
  ("110", "B", "Fire", "Z", "a"),
  ("111", "B", "Smoke", "Z", "a"),
  ("112", "B", "Combustion", "Z", "a"),
  ("113", "B", "Water flow", "Z", "a"),
  ("114", "B", "Heat", "Z", "a"),
  ("115", "B", "Pull Station", "Z", "a"),
  ("116", "B", "Duct", "Z", "a"),
  ("117", "B", "Flame", "Z", "a"),
  ("118", "B", "Near Alarm", "Z", "a"),
  ("120", "C", "Panic", "Z", "a"),
  ("121", "C", "Duress", "U", "a"),
  ("122", "C", "Silent", "Z", "a"),
  ("123", "C", "Audible", "Z", "a"),
  ("124", "C", "Duress-Access granted", "Z", "a"),
  ("125", "C", "Duress-Egress granted", "Z", "a"),
  ("126", "C", "Hold-up suspicion print", "U", "a"),
  ("130", "D", "Burglary", "Z", "a"),
  ("131", "D", "Perimeter", "Z", "a"),
  ("132", "D", "Interior", "Z", "a"),
  ("133", "D", "24 Hour burglary", "Z", "a"),
  ("134", "D", "Entry/Exit", "Z", "a"),
  ("135", "D", "Day/Night", "Z", "a"),
  ("136", "D", "Outdoor", "Z", "a"),
  ("137", "D", "Tamper", "Z", "a"),
  ("138", "D", "Near alarm", "Z", "a"),
  ("139", "D", "Intrusion Verifier", "Z", "a"),
  ("140", "E", "General Alarm", "Z", "a"),
  ("141", "E", "Polling loop open", "Z", "a"),
  ("142", "E", "Polling loop short", "Z", "a"),
  ("143", "E", "Expansion module failure", "Z", "a"),
  ("144", "E", "Sensor tamper", "Z", "a"),
  ("145", "E", "Expansion module tamper", "Z", "a"),
  ("146", "E", "Silent Burglary", "Z", "a"),
  ("147", "E", "Sensor Supervision Failure", "Z", "a"),
  ("150", "F", "24 Hour Non-Burglary", "Z", "a"),
  ("151", "F", "Gas detected", "Z", "a"),
  ("152", "F", "Refrigeration", "Z", "a"),
  ("153", "F", "Loss of heat", "Z", "a"),
  ("154", "F", "Water Leakage", "Z", "a"),
  ("155", "F", "Foil Break", "Z", "a"),
  ("156", "F", "Day Trouble", "Z", "a"),
  ("157", "F", "Low bottled gas level", "Z", "a"),
  ("158", "F", "High temp", "Z", "a"),
  ("159", "F", "Low temp", "Z", "a"),
  ("161", "F", "Loss of air flow", "Z", "a"),
  ("162", "F", "Carbon Monoxide detected", "Z", "a"),
  ("163", "F", "Tank level", "Z", "a"),
  ("168", "F", "High Humidity", "Z", "a"),
  ("169", "F", "Low Humidity", "Z", "a"),
  ("200", "G", "Fire Supervisory", "Z", "a"),
  ("201", "G", "Low water pressure", "Z", "a"),
  ("202", "G", "Low CO2", "Z", "a"),
  ("203", "G", "Gate valve sensor", "Z", "a"),
  ("204", "G", "Low water level", "Z", "a"),
  ("205", "G", "Pump activated", "Z", "a"),
  ("206", "G", "Pump failure", "Z", "a"),
  ("300", "H", "System Trouble", "Z", "a"),
  ("301", "H", "AC Loss", "Z", "a"),
  ("302", "H", "Low system battery", "Z", "a"),
  ("303", "H", "RAM Checksum bad", "Z", "a"),
  ("304", "H", "ROM checksum bad", "Z", "a"),
  ("305", "H", "System reset", "Z", "a"),
  ("306", "H", "Panel programming changed", "Z", "a"),
  ("307", "H", "Self-test failure", "Z", "a"),
  ("308", "H", "System shutdown", "Z", "a"),
  ("309", "H", "Battery test failure", "Z", "a"),
  ("310", "H", "Ground fault", "Z", "a"),
  ("311", "H", "Battery Missing/Dead", "Z", "a"),
  ("312", "H", "Power Supply Overcurrent", "Z", "a"),
  ("313", "H", "Engineer Reset", "U", "a"),
  ("314", "H", "Primary Power Supply Failure", "Z", "a"),
  ("316", "H", "System Tamper", "X", "a"),
  ("320", "I", "Sounder/Relay", "Z", "a"),
  ("321", "I", "Bell 1", "Z", "a"),
  ("322", "I", "Bell 2", "Z", "a"),
  ("323", "I", "Alarm relay", "Z", "a"),
  ("324", "I", "Trouble relay", "Z", "a"),
  ("325", "I", "Reversing relay", "Z", "a"),
  ("326", "I", "Notification Appliance Ckt. #3", "Z", "a"),
  ("327", "I", "Notification Appliance Ckt. #4", "Z", "a"),
  ("330", "J", "System Peripheral trouble", "Z", "a"),
  ("331", "J", "Polling loop open", "Z", "a"),
  ("332", "J", "Polling loop short", "Z", "a"),
  ("333", "J", "Expansion module failure", "Z", "a"),
  ("334", "J", "Repeater failure", "Z", "a"),
  ("335", "J", "Local printer out of paper", "Z", "a"),
  ("336", "J", "Local printer failure", "Z", "a"),
  ("337", "J", "Exp. Module DC Loss", "Z", "a"),
  ("338", "J", "Exp. Module Low Battery", "Z", "a"),
  ("339", "J", "Exp. Module Reset", "Z", "a"),
  ("341", "J", "Exp. Module Tamper", "Z", "a"),
  ("342", "J", "Exp. Module AC Loss", "Z", "a"),
  ("343", "J", "Exp. Module self-test fail", "Z", "a"),
  ("344", "J", "RF Receiver Jam Detect", "Z", "a"),
  ("345", "J", "AES Encryption disabled/enabled", "Z", "a"),
  ("350", "K", "Communication trouble", "Z", "a"),
  ("351", "K", "Telco 1 fault", "Z", "a"),
  ("352", "K", "Telco 2 fault", "Z", "a"),
  ("353", "K", "Long Range Radio xmitter fault", "Z", "a"),
  ("354", "K", "Failure to communicate event", "Z", "a"),
  ("355", "K", "Loss of Radio supervision", "Z", "a"),
  ("356", "K", "Loss of central polling", "Z", "a"),
  ("357", "K", "Long Range Radio Transmitter VSWR", "Z", "a"),
  ("370", "L", "Protection loop", "Z", "a"),
  ("371", "L", "Protection loop open", "Z", "a"),
  ("372", "L", "Protection loop short", "Z", "a"),
  ("373", "L", "Fire trouble", "Z", "a"),
  ("374", "L", "Exit error by User", "Z", "a"),
  ("375", "L", "Panic zone trouble", "Z", "a"),
  ("376", "L", "Hold-up zone trouble", "Z", "a"),
  ("377", "L", "Swinger Trouble", "Z", "a"),
  ("378", "L", "Cross-zone Trouble", "Z", "a"),
  ("380", "M", "Sensor trouble global", "Z", "a"),
  ("381", "M", "Loss of supervision - RF", "Z", "a"),
  ("382", "M", "Loss of supervision - RPM", "Z", "a"),
  ("383", "M", "Sensor tamper", "Z", "a"),
  ("384", "M", "RF low battery", "Z", "a"),
  ("385", "M", "Smoke detector Hi sensitivity", "Z", "a"),
  ("386", "M", "Smoke detector Low sensitivity", "Z", "a"),
  ("387", "M", "Intrusion detector Hi sensitivity", "Z", "a"),
  ("388", "M", "Intrusion detector Low sensitivity", "Z", "a"),
  ("389", "M", "Sensor self-test failure", "Z", "a"),
  ("391", "M", "Sensor Watch failure", "Z", "a"),
  ("392", "M", "Drift Compensation Error", "Z", "a"),
  ("393", "M", "Maintenance Alert", "Z", "a"),
  ("400", "N", "Open/Close", "U", "b"),
  ("401", "N", "Open/Close by User", "U", "b"),
  ("402", "N", "Group Open/Close", "U", "b"),
  ("403", "N", "Automatic Open/Close", "U", "b"),
  ("404", "N", "Late to O/C (Note: use 453, 454 instead)", "U", "b"),
  ("405", "N", "Deferred O/C (Obsolete - do not use)", "U", "b"),
  ("406", "N", "Cancel (by User)", "U", "b"),
  ("407", "N", "Remote arm/disarm", "U", "b"),
  ("408", "N", "Quick arm", "U", "b"),
  ("409", "N", "Keyswitch Open/Close", "U", "b"),
  ("411", "O", "Callback requested", "U", "a"),
  ("412", "O", "Successful download access", "U", "a"),
  ("413", "O", "Unsuccessful access", "U", "a"),
  ("414", "O", "System shutdown command received", "U", "a"),
  ("415", "O", "Dialer shutdown command received", "U", "a"),
  ("416", "O", "Successful Upload", "Z", "a"),
  ("421", "P", "Access denied", "U", "a"),
  ("422", "P", "Access report by User", "U", "a"),
  ("423", "P", "Forced Access", "Z", "a"),
  ("424", "P", "Egress Denied", "U", "a"),
  ("425", "P", "Egress Granted", "U", "a"),
  ("426", "P", "Access Door propped open", "Z", "a"),
  ("427", "P", "Access point Door Status Monitor trouble", "Z", "a"),
  ("428", "P", "Access point Request To Exit trouble", "Z", "a"),
  ("429", "P", "Access program mode entry", "U", "a"),
  ("430", "P", "Access program mode exit", "U", "a"),
  ("431", "P", "Access threat level change", "U", "a"),
  ("432", "P", "Access relay/trigger fail", "Z", "a"),
  ("433", "P", "Access Request to Exit shunt", "Z", "a"),
  ("434", "P", "Access Door Status Monitor shunt", "Z", "a"),
  ("435", "P", "Second Person Access", "U", "a"),
  ("436", "P", "Irregular Access", "U", "a"),
  ("441", "N", "Armed Stay", "U", "b"),
  ("442", "N", "Keyswitch Armed Stay", "U", "b"),
  ("450", "N", "Exception Open/Close", "U", "b"),
  ("451", "N", "Early Open/Close", "U", "b"),
  ("452", "N", "Late Open/Close", "U", "b"),
  ("453", "N", "Failed to Open", "U", "b"),
  ("454", "N", "Failed to Close", "U", "b"),
  ("455", "N", "Auto-arm Failed", "U", "b"),
  ("456", "N", "Partial Arm", "U", "b"),
  ("457", "N", "User Exit Error", "U", "b"),
  ("458", "N", "User on Premises", "U", "b"),
  ("459", "N", "Recent Close", "U", "b"),
  ("461", "N", "Wrong Code Entry", "Z", "b"),
  ("462", "N", "Legal Code Entry", "U", "b"),
  ("463", "N", "Re-arm after Alarm", "U", "b"),
  ("464", "N", "Auto-arm Time Extended", "U", "b"),
  ("465", "N", "Panic Alarm Reset", "Z", "b"),
  ("466", "N", "Service On/Off Premises", "U", "b"),
  ("501", "Q", "Access reader disable", "Z", "a"),
  ("520", "R", "Sounder/Relay Disable", "Z", "a"),
  ("521", "R", "Bell 1 disable", "Z", "a"),
  ("522", "R", "Bell 2 disable", "Z", "a"),
  ("523", "R", "Alarm relay disable", "Z", "a"),
  ("524", "R", "Trouble relay disable", "Z", "a"),
  ("525", "R", "Reversing relay disable", "Z", "a"),
  ("526", "R", "Notification Appliance Ckt. # 3 disable", "Z", "a"),
  ("527", "R", "Notification Appliance Ckt. # 4 disable", "Z", "a"),
  ("531", "S", "Module Added", "Z", "a"),
  ("532", "S", "Module Removed", "Z", "a"),
  ("551", "T", "Dialer disabled", "Z", "a"),
  ("552", "T", "Radio transmitter disabled", "Z", "a"),
  ("553", "T", "Remote Upload/Download disabled", "Z", "a"),
  ("570", "U", "Zone/Sensor bypass", "Z", "a"),
  ("571", "U", "Fire bypass", "Z", "a"),
  ("572", "U", "24 Hour zone bypass", "Z", "a"),
  ("573", "U", "Burglary Bypass", "Z", "a"),
  ("574", "U", "Group Bypass", "U", "a"),
  ("575", "U", "Swinger Bypass", "Z", "a"),
  ("576", "U", "Access zone shunt", "Z", "a"),
  ("577", "U", "Access point bypass", "Z", "a"),
  ("578", "U", "Vault Bypass", "Z", "a"),
  ("579", "U", "Vent Bypass", "Z", "a"),
  ("601", "V", "Manual trigger test report", "Z", "a"),
  ("602", "V", "Periodic test report", "Z", "a"),
  ("603", "V", "Periodic RF transmission", "Z", "a"),
  ("604", "V", "Fire test", "U", "a"),
  ("605", "V", "Status report to follow", "Z", "a"),
  ("606", "V", "Listen-in to follow", "Z", "a"),
  ("607", "V", "Walk test mode", "U", "a"),
  ("608", "V", "System Trouble Present", "Z", "a"),
  ("609", "V", "Video Transmitter active", "Z", "a"),
  ("611", "V", "Point tested OK", "Z", "a"),
  ("612", "V", "Point not tested", "Z", "a"),
  ("613", "V", "Intrusion Zone Walk Tested", "Z", "a"),
  ("614", "V", "Fire Zone Walk Tested", "Z", "a"),
  ("615", "V", "Panic Zone Walk Tested", "Z", "a"),
  ("616", "V", "Trouble Service Request", "Z", "a"),
  ("621", "W", "Event Log reset", "Z", "a"),
  ("622", "W", "Event Log 50% full", "Z", "a"),
  ("623", "W", "Event Log 90% full", "Z", "a"),
  ("624", "W", "Event Log overflow", "Z", "a"),
  ("625", "W", "Time/Date reset", "U", "a"),
  ("626", "W", "Time/Date inaccurate", "Z", "a"),
  ("627", "W", "Program mode entry", "Z", "a"),
  ("628", "W", "Program mode exit", "Z", "a"),
  ("629", "W", "32 Hour Event log marker", "Z", "a"),
  ("630", "X", "Schedule change", "Z", "a"),
  ("631", "X", "Exception schedule change", "Z", "a"),
  ("632", "X", "Access schedule change", "Z", "a"),
  ("641", "Y", "Senior Person Watch Trouble (No movement)", "Z", "a"),
  ("642", "Y", "Latch-key Supervision", "U", "a"),
  ("651", "Z", "Identifies ADT Authorized Dealer", "Z", "a"),
  ("652", "Z", "Reserved for ADEMCO Use", "U", "a"),
  ("653", "Z", "Reserved for ADEMCO Use", "U", "a"),
  ("654", "Z", "System Inactivity", "Z", "a"),
  ("703", "Z", "Auxiliary #3", "Z", "a"),
  ("704", "Z", "Installer Test", "Z", "a"),
  ("750", "*", "Assign Your Own Description", "?", "a"),
  ("751", "*", "Assign Your Own Description", "?", "a"),
  ("752", "*", "Assign Your Own Description", "?", "a"),
  ("753", "*", "Assign Your Own Description", "?", "a"),
  ("754", "*", "Assign Your Own Description", "?", "a"),
  ("755", "*", "Assign Your Own Description", "?", "a"),
  ("756", "*", "Assign Your Own Description", "?", "a"),
  ("757", "*", "Assign Your Own Description", "?", "a"),
  ("758", "*", "Assign Your Own Description", "?", "a"),
  ("759", "*", "Assign Your Own Description", "?", "a"),
  ("760", "*", "Assign Your Own Description", "?", "a"),
  ("761", "*", "Assign Your Own Description", "?", "a"),
  ("762", "*", "Assign Your Own Description", "?", "a"),
  ("763", "*", "Assign Your Own Description", "?", "a"),
  ("764", "*", "Assign Your Own Description", "?", "a"),
  ("765", "*", "Assign Your Own Description", "?", "a"),
  ("766", "*", "Assign Your Own Description", "?", "a"),
  ("767", "*", "Assign Your Own Description", "?", "a"),
  ("768", "*", "Assign Your Own Description", "?", "a"),
  ("769", "*", "Assign Your Own Description", "?", "a"),
  ("770", "*", "Assign Your Own Description", "?", "a"),
  ("771", "*", "Assign Your Own Description", "?", "a"),
  ("772", "*", "Assign Your Own Description", "?", "a"),
  ("773", "*", "Assign Your Own Description", "?", "a"),
  ("774", "*", "Assign Your Own Description", "?", "a"),
  ("775", "*", "Assign Your Own Description", "?", "a"),
  ("776", "*", "Assign Your Own Description", "?", "a"),
  ("777", "*", "Assign Your Own Description", "?", "a"),
  ("778", "*", "Assign Your Own Description", "?", "a"),
  ("779", "*", "Assign Your Own Description", "?", "a"),
  ("780", "*", "Assign Your Own Description", "?", "a"),
  ("781", "*", "Assign Your Own Description", "?", "a"),
  ("782", "*", "Assign Your Own Description", "?", "a"),
  ("783", "*", "Assign Your Own Description", "?", "a"),
  ("784", "*", "Assign Your Own Description", "?", "a"),
  ("785", "*", "Assign Your Own Description", "?", "a"),
  ("786", "*", "Assign Your Own Description", "?", "a"),
  ("787", "*", "Assign Your Own Description", "?", "a"),
  ("788", "*", "Assign Your Own Description", "?", "a"),
  ("789", "*", "Assign Your Own Description", "?", "a"),
  ("796", "Z", "Unable to output signal (Derived Channel)", "Z", "a"),
  ("798", "Z", "STU Controller down (Derived Channel)", "Z", "a"),
  ("900", "Z", "Download Abort Downloader", "X", "a"),
  ("901", "Z", "Download Start/End", "X", "a"),
  ("902", "Z", "Download Interrupted", "X", "a"),
  ("910", "Z", "Auto-close with Bypass", "Z", "a"),
  ("911", "Z", "Bypass Closing", "Z", "a"),
  ("912", "Z", "Fire Alarm Silenced", "X", "a"),
  ("913", "Z", "Supervisory Point test Start/End", "U", "a"),
  ("914", "Z", "Hold-up test Start/End", "U", "a"),
  ("915", "Z", "Burglary Test Print Start/End", "X", "a"),
  ("916", "Z", "Supervisory Point test Start/End", "X", "a"),
  ("917", "Z", "Burg. Diagnostics Start/End", "Z", "a"),
  ("918", "Z", "Fire Diagnostics Start/End", "Z", "a"),
  ("919", "Z", "Untyped diagnostics", "Z", "a"),
  ("920", "Z", "Trouble Closing (closed with burg. During exit)", "U", "a"),
  ("921", "Z", "Access Denied Code Unknown", "U", "a"),
  ("922", "Z", "Supervisory Point Alarm", "Z", "a"),
  ("923", "Z", "Supervisory Point Bypass", "Z", "a"),
  ("924", "Z", "Supervisory Point Trouble", "Z", "a"),
  ("925", "Z", "Hold-up Point Bypass", "Z", "a"),
  ("926", "Z", "AC Failure for 4 hours", "Z", "a"),
  ("927", "Z", "Output Trouble", "Z", "a"),
  ("928", "Z", "User code for event", "U", "a"),
  ("929", "Z", "Log-off", "U", "a"),
  ("954", "Z", "Call Center Connection Failure", "X", "a"),
  ("961", "Z", "Receiver Database Connection Fail/Restore", "X", "a"),
  ("962", "Z", "License Expiration Notify", "X", "a"),
  ("999", "Z", "1 and 1/3 day no read log event", "X", "a")
]

/-- Inner lookup for `CID_EventQualifiers[EQselector][CID_QualCode]`
(cid.py line 444/446); `none` models the `KeyError`. -/
def lookupQual (EQselector : String) (CID_QualCode : Char) : Option String :=
  match lookupTab CID_EventQualifiers EQselector with
  | none => none
  | some inner => (inner.find? (fun e => e.1 == CID_QualCode)).map (fun e => e.2)

/-- The `agent` computation of `getDescription` (cid.py lines 429-440): the
`try/except KeyError` around the user/zone lookup yields the fixed fallback
text on a missing agent id. -/
def agentText (users zones : List (String × String)) (kind CID_AgentID : String) : String :=
  if kind = "U" then
    match lookupTab users CID_AgentID with
    | some u => "User:" ++ u
    | none => "Unknown user/zone/agent"
  else if kind = "Z" then
    match lookupTab zones CID_AgentID with
    | some z => "Zone:" ++ z
    | none => "Unknown user/zone/agent"
  else if kind = "X" then "ID:" ++ CID_AgentID
  else "User: ???"

/-- The `reply` string assembled by `getDescription` for each verbosity
level (cid.py lines 443-448), before exclamation marks are removed. -/
def composeReply (decodeLevel CID_Partition CID_Event desc agent category qualText : String) :
    String :=
  if decodeLevel = "VERBOSE" then
    "Partition:" ++ CID_Partition ++ ", " ++ category ++ ", " ++ qualText ++ ":" ++
      CID_Event ++ " " ++ desc ++ ", " ++ agent
  else if decodeLevel = "NORMAL" then
    "Partition:" ++ CID_Partition ++ ", " ++ qualText ++ ":" ++ CID_Event ++ " " ++
      desc ++ ", " ++ agent
  else
    "Partition:" ++ CID_Partition ++ ", " ++ desc ++ ", " ++ agent

/-- `DecodeCID.getDescription` (cid.py lines 415-458).  The result is
`.error` exactly when the Python method would let an exception escape to the
caller (only the `IndexError` of `thisCID[0]` on an empty string); every
caught exception path returns its `.ok` fallback string.  The final
`replace('!', '')` of line 453 is `removeBang`. -/
def getDescriptionE (decodeLevel : String) (users zones : List (String × String))
    (CID : String) : Except String String :=
  match CID.data.head? with
  | none => .error "IndexError"
  | some CID_QualCode =>
    match lookupTab CID_EventCodes (pySlice 1 4 CID) with
    | none => .ok ("No description available for CID event code " ++ pySlice 1 4 CID)
    | some resultTuple =>
      if decodeLevel = "VERBOSE" then
        match lookupTab CID_EventCategory resultTuple.1,
            lookupQual resultTuple.2.2.2 CID_QualCode with
        | some category, some qualText =>
          .ok (removeBang (composeReply decodeLevel (pySlice 4 6 CID) (pySlice 1 4 CID)
            resultTuple.2.1 (agentText users zones resultTuple.2.2.1 (pySlice 6 9 CID))
            category qualText))
        | _, _ => .ok "Unable to decode CID"
      else if decodeLevel = "NORMAL" then
        match lookupQual resultTuple.2.2.2 CID_QualCode with
        | some qualText =>
          .ok (removeBang (composeReply decodeLevel (pySlice 4 6 CID) (pySlice 1 4 CID)
            resultTuple.2.1 (agentText users zones resultTuple.2.2.1 (pySlice 6 9 CID))
            "" qualText))
        | none => .ok "Unable to decode CID"
      else if decodeLevel = "TERSE" then
        .ok (removeBang (composeReply decodeLevel (pySlice 4 6 CID) (pySlice 1 4 CID)
          resultTuple.2.1 (agentText users zones resultTuple.2.2.1 (pySlice 6 9 CID))
          "" ""))
      else
        .ok "CID-003E Invalid input - unable to decode CID"

/-- A valid decode level, as guaranteed by the `DecodeCID` constructor
(cid.py lines 393-397). -/
def validLevel (decodeLevel : String) : Prop :=
  decodeLevel = "VERBOSE" ∨ decodeLevel = "NORMAL" ∨ decodeLevel = "TERSE"

/-- A 10-character string of decimal digits (a Contact ID code). -/
def digits10 (s : String) : Bool :=
  s.data.length == 10 && s.data.all Char.isDigit

end DecodeCID

namespace TelnetEVL4

/-- Security-system partition states (telnetEVL4.py `pstates`). -/
def pstates : List (Nat × String) := [
  (1, "READY"), (2, "READY TO ARM"), (3, "NOT READY"), (4, "ARMED STAY"),
  (5, "ARMED AWAY"), (6, "ARMED INSTANT"), (7, "EXIT DELAY"), (8, "ALARMING NOW"),
  (9, "WAS ALARMING"), (10, "ARMED MAXIMUM")
]

/-- `%03d` formatting of a zone number. -/
def fmt03 (n : Nat) : String :=
  if n < 10 then "00" ++ toString n
  else if n < 100 then "0" ++ toString n
  else toString n

/-- One `if bit then append phrase` line of `doType00`. -/
def addPhrase (status : String) (cond : Bool) (phrase : String) : String :=
  if cond then status ++ phrase else status

/-- The status text built by `TelnetEVL4.doType00` (telnetEVL4.py lines
225-250) from the 16 status bits and the two free-text checks. -/
def type00Status (msg : String) (myint : Nat) : String :=
  let status := ""
  let status := addPhrase status (myint &&& (1 <<< 15) != 0) "ARMED STAY,"
  let status := addPhrase status (myint &&& (1 <<< 14) != 0) "LOW BATTERY,"
  let status := addPhrase status (myint &&& (1 <<< 13) != 0) "FIRE,"
  let status := addPhrase status (myint &&& (1 <<< 12) != 0) "SYSTEM READY,"
  let status := addPhrase status (myint &&& (1 <<< 9) != 0) "SYSTEM TROUBLE,"
  let status := addPhrase status (myint &&& (1 <<< 8) != 0) "FIRE ZONE ALARM,"
  let status := addPhrase status (myint &&& (1 <<< 7) != 0) "ARMED NO DELAY,"
  let status := addPhrase status (myint &&& (1 <<< 5) != 0) "CHIME,"
  let status := addPhrase status (myint &&& (1 <<< 4) != 0) "ZONES BYPASSED,"
  let status := if myint &&& (1 <<< 3) != 0 then status ++ "AC PRESENT,"
    else status ++ "AC LOSS,"
  let status := addPhrase status (myint &&& (1 <<< 2) != 0) "ARMED AWAY,"
  let status := addPhrase status (myint &&& (1 <<< 1) != 0) "ALARM IN MEMORY,"
  let status := addPhrase status (myint &&& 1 != 0) "ALARMED STATE,"
  let status := addPhrase status (hasSubstr "NIGHT-STAY" msg) "NIGHT-STAY,"
  let status := addPhrase status (hasSubstr "DISARMED" msg) "DISARMED,"
  pyStrip " ," status

/-- `TelnetEVL4.doType00`: decode an alpha-keypad `%00` message.  `none`
models the exception raised by a missing third field or a non-hex status
field. -/
def doType00 (msg : String) : Option String :=
  match (pySplitCh ',' msg.data).get? 2 with
  | none => none
  | some f =>
    match pyParseHex f with
    | none => none
    | some myint => some (type00Status msg myint)

/-- The sixteen bit tests of one 4-hex-digit group of `doType01`
(telnetEVL4.py lines 277-293), including the `strip(',')` that the source
performs INSIDE the per-group loop. -/
def doType01Group (x zbits : Nat) (znums : String) : String :=
  let znums := addPhrase znums (zbits &&& (1 <<< 8) != 0) (fmt03 (16 * x + 1) ++ ",")
  let znums := addPhrase znums (zbits &&& (1 <<< 9) != 0) (fmt03 (16 * x + 2) ++ ",")
  let znums := addPhrase znums (zbits &&& (1 <<< 10) != 0) (fmt03 (16 * x + 3) ++ ",")
  let znums := addPhrase znums (zbits &&& (1 <<< 11) != 0) (fmt03 (16 * x + 4) ++ ",")
  let znums := addPhrase znums (zbits &&& (1 <<< 12) != 0) (fmt03 (16 * x + 5) ++ ",")
  let znums := addPhrase znums (zbits &&& (1 <<< 13) != 0) (fmt03 (16 * x + 6) ++ ",")
  let znums := addPhrase znums (zbits &&& (1 <<< 14) != 0) (fmt03 (16 * x + 7) ++ ",")
  let znums := addPhrase znums (zbits &&& (1 <<< 15) != 0) (fmt03 (16 * x + 8) ++ ",")
  let znums := addPhrase znums (zbits &&& (1 <<< 0) != 0) (fmt03 (16 * x + 9) ++ ",")
  let znums := addPhrase znums (zbits &&& (1 <<< 1) != 0) (fmt03 (16 * x + 10) ++ ",")
  let znums := addPhrase znums (zbits &&& (1 <<< 2) != 0) (fmt03 (16 * x + 11) ++ ",")
  let znums := addPhrase znums (zbits &&& (1 <<< 3) != 0) (fmt03 (16 * x + 12) ++ ",")
  let znums := addPhrase znums (zbits &&& (1 <<< 4) != 0) (fmt03 (16 * x + 13) ++ ",")
  let znums := addPhrase znums (zbits &&& (1 <<< 5) != 0) (fmt03 (16 * x + 14) ++ ",")
  let znums := addPhrase znums (zbits &&& (1 <<< 6) != 0) (fmt03 (16 * x + 15) ++ ",")
  let znums := addPhrase znums (zbits &&& (1 <<< 7) != 0) (fmt03 (16 * x + 16) ++ ",")
  if znums != "" then pyStrip "," znums else znums

/-- `TelnetEVL4.doType01` (telnetEVL4.py lines 255-295): decode a `%01` zone
state change message, eight little-endian 4-hex-digit groups.  `none` models
the exception raised by a missing payload field or non-hex characters. -/
def doType01 (msg : String) : Option String :=
  match (pySplitCh ',' msg.data).get? 1 with
  | none => none
  | some zonesField =>
    let zonesStr : String := pyStrip "$" ⟨zonesField⟩
    (List.range 8).foldl
      (fun acc x =>
        match acc with
        | none => none
        | some znums =>
          match pyParseHex ((zonesStr.data.drop (x * 4)).take 4) with
          | none => none
          | some zbits => some (doType01Group x zbits znums))
      (some "")

/-- `TelnetEVL4.doType02` (telnetEVL4.py lines 299-326): decode a `%02`
partition state message, eight 2-hex-digit slots.  `none` models the
exception raised by short/non-hex payloads or an out-of-range state
(`KeyError` in `pstates`). -/
def doType02 (msg : String) : Option String :=
  match (pySplitCh ',' msg.data).get? 1 with
  | none => none
  | some partField =>
    let partitions : String := pyStrip "$" ⟨partField⟩
    ((List.range 8).foldl
      (fun acc x =>
        match acc with
        | none => none
        | some notice =>
          let part := "PTN" ++ toString (x + 1)
          match pyParseHex ((partitions.data.drop (x * 2)).take 2) with
          | none => none
          | some intstate =>
            if intstate != 0 then
              match pstates.find? (fun e => e.1 == intstate) with
              | none => none
              | some st => some (notice ++ part ++ "=" ++ st.2 ++ ",")
            else some notice)
      (some "")).map (fun notice => pyStrip "," notice)

/-- `TelnetEVL4.doType03` (telnetEVL4.py lines 330-334): tag a contact-id
payload. -/
def doType03 (msg : String) : Option String :=
  match (pySplitCh ',' msg.data).get? 1 with
  | none => none
  | some f => some ("CID=" ++ pyStrip "$" (⟨f⟩ : String))

/-- `TelnetEVL4.doTypeFF` (telnetEVL4.py lines 339-346): placeholder. -/
def doTypeFF (_msg : String) : Option String :=
  some "Zone nnn Closed mm Minutes Ago"

/-- `MAX_HISTORY` of `TelnetEVL4` (telnetEVL4.py line 54). -/
def MAX_HISTORY : Nat := 2

/-- The dictionary-of-dictionaries `recentMsgs`, modelled as an association
list from channel name to a `Nat`-keyed message dictionary. -/
abbrev RecentMsgs := List (String × List (Nat × String))

/-- The initial (empty) `recentMsgs` of telnetEVL4.py lines 56-80. -/
def initRecentMsgs : RecentMsgs := [
  ("msg00raw", []), ("msg00txt", []), ("msg01raw", []), ("msg01txt", []),
  ("msg02raw", []), ("msg02txt", []), ("msg03raw", []), ("msg03txt", []),
  ("msgFFraw", []), ("msgFFtxt", []),
  ("req00", []), ("rsp00", []), ("req01", []), ("rsp01", []),
  ("req02", []), ("rsp02", []), ("req03", []), ("rsp03", []),
  ("msgflag00", []), ("msgflag01", []), ("msgflag02", []), ("msgflag03", []),
  ("msgflagFF", [])
]

/-- `self.recentMsgs[name][ts] = v`. -/
def updChan (name : String) (ts : Nat) (v : String) (st : RecentMsgs) : RecentMsgs :=
  st.map (fun e => if e.1 = name then (e.1, dictInsert ts v e.2) else e)

/-- `TelnetEVL4.pruneAll` (telnetEVL4.py lines 439-448): prune every channel
dictionary down to `MAX_HISTORY` entries, dropping the oldest keys. -/
def pruneAll (st : RecentMsgs) : RecentMsgs :=
  st.map (fun e => (e.1, pruneByKey MAX_HISTORY Prod.fst e.2))

/-- `TelnetEVL4.getNextMessage` (telnetEVL4.py lines 119-187), as a state
transition on `recentMsgs`.  `msg` is the message text after `strip()`,
`now` the `time.time_ns()` value of this iteration.  When a `doTypeNN`
decoder raises (returns `none`), the raw entry has already been stored but
the txt/flag entries are not (the exception jumps to the handler); in every
case `pruneAll` then runs.  `getNextMessageStore` is the classify-and-store
part (lines 126-180), `getNextMessage` adds the `pruneAll()` call of line
185. -/
def getNextMessageStore (now : Nat) (msg : String) (st : RecentMsgs) : RecentMsgs :=
  if pyStartsWith "^09" msg then st
  else if pyStartsWith "^00" msg then updChan "rsp00" now msg st
  else if pyStartsWith "^01" msg then updChan "rsp01" now msg st
  else if pyStartsWith "^02" msg then updChan "rsp02" now msg st
  else if pyStartsWith "^03" msg then updChan "rsp03" now msg st
  else if pyStartsWith "%00" msg then
    match doType00 msg with
    | some txt =>
      updChan "msgflag00" now "1" (updChan "msg00txt" now txt
        (updChan "msg00raw" now msg st))
    | none => updChan "msg00raw" now msg st
  else if pyStartsWith "%01" msg then
    match doType01 msg with
    | some txt =>
      updChan "msgflag01" now "1" (updChan "msg01txt" now txt
        (updChan "msg01raw" now msg st))
    | none => updChan "msg01raw" now msg st
  else if pyStartsWith "%02" msg then
    match doType02 msg with
    | some txt =>
      updChan "msgflag02" now "1" (updChan "msg02txt" now txt
        (updChan "msg02raw" now msg st))
    | none => updChan "msg02raw" now msg st
  else if pyStartsWith "%03" msg then
    match doType03 msg with
    | some txt =>
      updChan "msgflag03" now "1" (updChan "msg03txt" now txt
        (updChan "msg03raw" now msg st))
    | none => updChan "msg03raw" now msg st
  else if pyStartsWith "%FF" msg then
    match doTypeFF msg with
    | some txt =>
      updChan "msgflagFF" now "1" (updChan "msgFFtxt" now txt
        (updChan "msgFFraw" now msg st))
    | none => updChan "msgFFraw" now msg st
  else st

def getNextMessage (now : Nat) (msg : String) (st : RecentMsgs) : RecentMsgs :=
  pruneAll (getNextMessageStore now msg st)

end TelnetEVL4

namespace ScanEVL4Log

/-- One scraped syslog CID event: the parallel dictionaries
`CIDevents['CIDs']` and `CIDevents['CIDflags']` of scanEVL4log.py (always
keyed identically) are modelled as one record list keyed by `ts`, the
second-resolution timestamp.  `reported = true` is flag `'1'`. -/
structure LogEntry where
  ts : Nat
  cid : String
  reported : Bool
  deriving Repr, DecidableEq

/-- `MAX_HISTORY` of `ScanEVL4Log` (scanEVL4log.py line 53). -/
def MAX_HISTORY : Nat := 2

/-- Dictionary assignment for a scanned record (scanEVL4log.py lines 85-87):
`CIDs[ts] = cid ; CIDflags[ts] = '0'`.  An existing key is overwritten in
place (its flag drops back to unreported), a new key is appended. -/
def insertCID (ts : Nat) (cid : String) : List LogEntry → List LogEntry
  | [] => [⟨ts, cid, false⟩]
  | e :: rest =>
    if e.ts = ts then ⟨ts, cid, false⟩ :: rest else e :: insertCID ts cid rest

/-- `ScanEVL4Log.doPruning` (scanEVL4log.py lines 133-142). -/
def doPruning (st : List LogEntry) : List LogEntry :=
  pruneByKey MAX_HISTORY LogEntry.ts st

/-- The state effect of `ScanEVL4Log.getLogRecsWithCID` (scanEVL4log.py
lines 62-100): insert every `(timestamp, CID)` pair scraped from the new
log lines, then prune.  The file tailing and regular-expression matching
are I/O; the scraped pairs `recs` are passed in. -/
def getLogRecsWithCID (recs : List (Nat × String)) (st : List LogEntry) : List LogEntry :=
  doPruning (recs.foldl (fun s r => insertCID r.1 r.2 s) st)

/-- The `candidateCIDs` dictionary returned by `getLogRecsWithCID`
(scanEVL4log.py lines 95-100): the entries whose flag is still `'0'`. -/
def candidateCIDs (st : List LogEntry) : List (Nat × String) :=
  (st.filter (fun e => e.reported = false)).map (fun e => (e.ts, e.cid))

/-- `ScanEVL4Log.flagAsReportedCID` (scanEVL4log.py lines 104-107): set the
flag of the entry keyed `tskey` to `'1'`.  (On a key with no CID entry the
Python code would create an orphan flag that no reader ever consults; that
is modelled as a no-op.) -/
def flagAsReportedCID (tskey : Nat) (st : List LogEntry) : List LogEntry :=
  st.map (fun e => if e.ts = tskey then ⟨e.ts, e.cid, true⟩ else e)

/-- `ScanEVL4Log.getRecentCIDs` (scanEVL4log.py lines 111-126): the recent
entries whose flag matches `isReptd`. -/
def getRecentCIDs (nowts RECENT_SECS : Nat) (isReptd : Bool) (st : List LogEntry) :
    List (Nat × String) :=
  (st.filter (fun e => Nat.dist nowts e.ts ≤ RECENT_SECS && e.reported == isReptd)).map
    (fun e => (e.ts, e.cid))

/-- The reported flag of the entry keyed `k` (observable state). -/
def flagOf (k : Nat) (st : List LogEntry) : Option Bool :=
  (st.find? (fun e => e.ts = k)).map LogEntry.reported

end ScanEVL4Log

namespace MyModem

/-- One sent-SMS history record: the parallel dictionaries
`SMS_history['alert']` and `SMS_history['phone']` of mymodem.py (always
keyed by the same nanosecond timestamp) as one record list. -/
structure SMSRec where
  ts : Nat
  alert : String
  phone : String
  deriving Repr, DecidableEq

/-- `MAX_HISTORY` of `MyModem` (mymodem.py line 154). -/
def MAX_HISTORY : Nat := 16

/-- `MyModem.saveHistory` (mymodem.py lines 303-307): record the message
under a fresh `time.time_ns()` key. -/
def saveHistory (now : Nat) (message recipient : String) (h : List SMSRec) : List SMSRec :=
  h ++ [⟨now, message, recipient⟩]

/-- `MyModem.isDuplicate` (mymodem.py lines 312-322): is there a history
entry with the same text and recipient whose age
`abs((now - k) / 1000000000)` is at most `RECENT_SECS` seconds?  The float
quotient is modelled exactly over `ℚ`. -/
def isDuplicate (RECENT_SECS now : Nat) (message recipient : String) (h : List SMSRec) :
    Bool :=
  h.any (fun r =>
    r.alert == message && r.phone == recipient &&
      decide ((Nat.dist now r.ts : ℚ) / 1000000000 ≤ (RECENT_SECS : ℚ)))

/-- Result of one `MyModem.sendSMS` call: the return code, the history
after the call, and the number of transmission attempts the call made on
the serial transport. -/
structure SendResult where
  rc : Nat
  history : List SMSRec
  attempts : Nat
  deriving Repr, DecidableEq

/-- `MyModem.sendSMS` (mymodem.py lines 169-201).  `doSend` is the
configuration flag `doSendSMS()`; `transportOk` tells whether the modem
answers the `AT+CMGS` exchange with `OK` (false covers both a serial
exception and a bad reply).  Return codes: 0 sent, 4 sending disabled,
8 duplicate suppressed, 16 hard failure. -/
def sendSMS (doSend : Bool) (RECENT_SECS now : Nat) (message recipient : String)
    (transportOk : Bool) (h : List SMSRec) : SendResult :=
  if isDuplicate RECENT_SECS now message recipient h then
    ⟨8, saveHistory now message recipient h, 0⟩
  else if doSend then
    if transportOk then ⟨0, saveHistory now message recipient h, 1⟩
    else ⟨16, h, 1⟩
  else ⟨4, h, 0⟩

/-- `MyModem.doPruning` (mymodem.py lines 421-436). -/
def doPruning (h : List SMSRec) : List SMSRec :=
  pruneByKey MAX_HISTORY SMSRec.ts h

end MyModem

/-- Lookup in a `Nat`-keyed dictionary (Python `d[k]`, `none` = `KeyError`). -/
def lookupKey {α : Type} (l : List (Nat × α)) (k : Nat) : Option α :=
  (l.find? (fun e => e.1 == k)).map (fun e => e.2)

/-- Python `str.lower()`. -/
def pyLower (s : String) : String :=
  ⟨s.data.map Char.toLower⟩

namespace DPM

/-- The composite alert assembled by `TPI` (DPM.py lines 232/237): the most
recent keypad-status text, the deliberate exclamation-mark separator, and
the decoded CID text. -/
def assembleAlert (keypadTxt cidTxt : String) : String :=
  keypadTxt ++ " ! " ++ cidTxt

/-- The message fragment tested by `checkRedAlert`/`checkYellowAlert`
(DPM.py lines 313-314 and 332-333): `msg.split('~')[0]`, the keypad half. -/
def redAlertFragment (msg : String) : String :=
  (pySplit '!' msg).getD 0 ""

/-- `DPM.checkRedAlert` (DPM.py lines 312-327). -/
def checkRedAlert (tokens : List String) (msg : String) : Bool :=
  tokens.any (fun tok => hasSubstr tok (redAlertFragment msg))

/-- `DPM.checkYellowAlert` (DPM.py lines 331-346). -/
def checkYellowAlert (tokens : List String) (msg : String) : Bool :=
  tokens.any (fun tok => hasSubstr tok (redAlertFragment msg))

/-- The message fragment tested by `checkNonAlert` (DPM.py lines 350-354):
the decoded-CID half when the separator is present, else the whole text. -/
def nonAlertFragment (msg : String) : String :=
  let tmpmsg := pySplit '!' msg
  if msg.data.contains '!' then tmpmsg.getD 1 "" else tmpmsg.getD 0 ""

/-- `DPM.checkNonAlert` (DPM.py lines 349-369). -/
def checkNonAlert (tokens : List String) (msg : String) : Bool :=
  tokens.any (fun tok => hasSubstr (pyLower tok) (nonAlertFragment msg))

/-- The "recent" syslog candidates collected by `scanSyslog` (DPM.py lines
556-563): unreported entries whose age `abs(nowts - key)` is at most
`RECENT_SECS`.  `st` is the scanner state after `getLogRecsWithCID`. -/
def recentCandidates (nowts RECENT_SECS : Nat) (st : List ScanEVL4Log.LogEntry) :
    List (Nat × String) :=
  (ScanEVL4Log.candidateCIDs st).filter (fun r => Nat.dist nowts r.1 ≤ RECENT_SECS)

/-- The inner matching loop of `scanSyslog` (DPM.py lines 571-589): does
some TPI contact-id entry carry the same code (after `strip('CID=')`) within
`ADJACENT_SECS` seconds (TPI keys are nanoseconds)? -/
def tpiMatchB (ADJACENT_SECS : Nat) (msg03txt : List (Nat × String)) (r : Nat × String) :
    Bool :=
  msg03txt.any (fun t =>
    pyStrip "CID=" t.2 == r.2 && Nat.dist (t.1 / 1000000000) r.1 ≤ ADJACENT_SECS)

/-- The recent candidates that match some adjacent TPI entry (each is
flagged reported by `scanSyslog` and skipped). -/
def matchedCandidates (nowts RECENT_SECS ADJACENT_SECS : Nat)
    (msg03txt : List (Nat × String)) (st : List ScanEVL4Log.LogEntry) :
    List (Nat × String) :=
  (recentCandidates nowts RECENT_SECS st).filter (tpiMatchB ADJACENT_SECS msg03txt)

/-- `finalCheckLS` of `scanSyslog` (DPM.py lines 590-592): the recent
candidates that match no adjacent TPI entry. -/
def unmatchedCandidates (nowts RECENT_SECS ADJACENT_SECS : Nat)
    (msg03txt : List (Nat × String)) (st : List ScanEVL4Log.LogEntry) :
    List (Nat × String) :=
  (recentCandidates nowts RECENT_SECS st).filter
    (fun r => !(tpiMatchB ADJACENT_SECS msg03txt r))

/-- `DPM.scanSyslog` (DPM.py lines 542-603), starting from the scanner
state `st` as left by its `getLogRecsWithCID()` call.  Every matched recent
candidate is flagged reported; if any recent candidate is unmatched, the
chronologically oldest one (`sorted(keys)[0]`) is flagged reported and
returned (the Python code returns its CID string and flags its key; the
returned pair carries both).  `scanSyslogFlagged` is the scanner state
after the inner matching loop has flagged every matched recent candidate
(DPM.py line 582). -/
def scanSyslogFlagged (nowts RECENT_SECS ADJACENT_SECS : Nat)
    (msg03txt : List (Nat × String)) (st : List ScanEVL4Log.LogEntry) :
    List ScanEVL4Log.LogEntry :=
  (matchedCandidates nowts RECENT_SECS ADJACENT_SECS msg03txt st).foldl
    (fun s r => ScanEVL4Log.flagAsReportedCID r.1 s) st

def scanSyslog (nowts RECENT_SECS ADJACENT_SECS : Nat)
    (msg03txt : List (Nat × String)) (st : List ScanEVL4Log.LogEntry) :
    List ScanEVL4Log.LogEntry × Option (Nat × String) :=
  match List.insertionSort (· ≤ ·)
      ((unmatchedCandidates nowts RECENT_SECS ADJACENT_SECS msg03txt st).map Prod.fst) with
  | [] => (scanSyslogFlagged nowts RECENT_SECS ADJACENT_SECS msg03txt st, none)
  | k :: _ =>
    (ScanEVL4Log.flagAsReportedCID k
        (scanSyslogFlagged nowts RECENT_SECS ADJACENT_SECS msg03txt st),
      (unmatchedCandidates nowts RECENT_SECS ADJACENT_SECS msg03txt st).find?
        (fun r => r.1 == k))

/-- The inner matching loop of `checkSyslog` (DPM.py lines 623-642): walk
the recent syslog CIDs most recent first (`keysSLG`), comparing each with
the most recent TPI contact-id entry (`keysTPI[0]`); the key of the first
match within `ADJACENT_SECS`, or `none`. -/
def checkSyslogMatch (nowts RECENT_SECS ADJACENT_SECS : Nat) (isReptd : Bool)
    (msg03txt : List (Nat × String)) (st : List ScanEVL4Log.LogEntry) : Option Nat :=
  match (List.insertionSort (fun a b => b ≤ a) (msg03txt.map Prod.fst)).head? with
  | none => none
  | some k0 =>
    match lookupKey msg03txt k0 with
    | none => none
    | some v0 =>
      (List.insertionSort (fun a b => b ≤ a)
          ((ScanEVL4Log.getRecentCIDs nowts RECENT_SECS isReptd st).map Prod.fst)).find?
        (fun key1 =>
          match lookupKey (ScanEVL4Log.getRecentCIDs nowts RECENT_SECS isReptd st) key1 with
          | some cidval =>
            pyStrip "CID=" v0 == cidval &&
              Nat.dist (k0 / 1000000000) key1 ≤ ADJACENT_SECS
          | none => false)

/-- `DPM.checkSyslog` (DPM.py lines 611-644): look for a recent syslog CID
(reported or unreported per `isReptd`) matching the MOST RECENT TPI
contact-id entry within `ADJACENT_SECS`; when matching in unreported mode,
flag the matched syslog entry.  Returns the updated scanner state and
`isMatched`. -/
def checkSyslog (nowts RECENT_SECS ADJACENT_SECS : Nat) (isReptd : Bool)
    (msg03txt : List (Nat × String)) (st : List ScanEVL4Log.LogEntry) :
    List ScanEVL4Log.LogEntry × Bool :=
  match checkSyslogMatch nowts RECENT_SECS ADJACENT_SECS isReptd msg03txt st with
  | some key1 =>
    (if isReptd then st else ScanEVL4Log.flagAsReportedCID key1 st, true)
  | none => (st, false)

/-- `avgphonect` of `optimizeSMS` (DPM.py line 506): the mean roster size
over the four phone categories, float division modelled over `ℚ`. -/
def avgPhoneCount (redphcnt yelphcnt bootphcnt inbdphcnt : Nat) : ℚ :=
  ((redphcnt : ℚ) + (yelphcnt : ℚ) + (bootphcnt : ℚ) + (inbdphcnt : ℚ)) / 4

/-- `riskpc` of `optimizeSMS` (DPM.py lines 513-518): the projected risk of
exhausting the SMS allowance, with the zero-divisor guard of line 515. -/
def riskPercent (daysToGo redphcnt yelphcnt bootphcnt inbdphcnt : Nat)
    (SMS_allowance sentSMS : ℤ) : ℤ :=
  let divisor : ℤ := SMS_allowance - sentSMS
  let divisor : ℤ := if divisor = 0 then 1 else divisor
  let dividend : ℚ := avgPhoneCount redphcnt yelphcnt bootphcnt inbdphcnt * (daysToGo : ℚ)
  pyRound (dividend / (divisor : ℚ) * 100)

/-- The authorization decision of `optimizeSMS` (DPM.py lines 502-536):
given `daysToGo` (already computed by the calendar arithmetic of lines
468-500), the four roster sizes, the allowance and the sent count, return
the `[redAlert, yellowAlert, rebootAlert]` triple. -/
def optimizeSMSGate (daysToGo redphcnt yelphcnt bootphcnt inbdphcnt : Nat)
    (SMS_allowance sentSMS : ℤ) : Bool × Bool × Bool :=
  let avgphonect := avgPhoneCount redphcnt yelphcnt bootphcnt inbdphcnt
  if avgphonect = 0 then (false, false, false)
  else
    let riskpc := riskPercent daysToGo redphcnt yelphcnt bootphcnt inbdphcnt
      SMS_allowance sentSMS
    if riskpc < 100 ∧ (sentSMS : ℚ) + avgphonect ≤ (SMS_allowance : ℚ) then
      (true, true, true)
    else if riskpc ≥ 100 ∧ (sentSMS : ℚ) + avgphonect ≤ (SMS_allowance : ℚ) then
      (true, false, false)
    else
      (false, false, false)

/-- The per-phone send logic of `callCellPhones` (DPM.py lines 391-405):
one `sendSMS` call, and on the hard-failure return code 16 exactly one
more `sendSMS` call ("trying one last time").  The result carries the
total number of transmission attempts made on the serial transport. -/
def sendToPhone (doSend : Bool) (RECENT_SECS t1 t2 : Nat) (fullMsg ph : String)
    (ok1 ok2 : Bool) (h : List MyModem.SMSRec) : MyModem.SendResult :=
  let r1 := MyModem.sendSMS doSend RECENT_SECS t1 fullMsg ph ok1 h
  if r1.rc = 16 then
    let r2 := MyModem.sendSMS doSend RECENT_SECS t2 fullMsg ph ok2 r1.history
    ⟨r2.rc, r2.history, r1.attempts + r2.attempts⟩
  else r1

end DPM

/-- One pass over the log scanner's state: a log-scan pass
(`getLogRecsWithCID`, with the pairs scraped from the new log lines) or a
correlation pass (`flagAsReportedCID`, `scanSyslog`, `checkSyslog`). -/
inductive LogOp where
  | scan (recs : List (Nat × String))
  | flagRep (k : Nat)
  | scanSys (nowts recent adj : Nat) (msg03txt : List (Nat × String))
  | checkSys (nowts recent adj : Nat) (isReptd : Bool) (msg03txt : List (Nat × String))

/-- Is this pass a correlation pass (rather than a log-scan pass)? -/
def LogOp.isCorrelation : LogOp → Bool
  | .scan _ => false
  | .flagRep _ => true
  | .scanSys _ _ _ _ => true
  | .checkSys _ _ _ _ _ => true

/-- Apply one pass to the log scanner's state. -/
def stepLog (st : List ScanEVL4Log.LogEntry) : LogOp → List ScanEVL4Log.LogEntry
  | .scan recs => ScanEVL4Log.getLogRecsWithCID recs st
  | .flagRep k => ScanEVL4Log.flagAsReportedCID k st
  | .scanSys nowts r a tpi => (DPM.scanSyslog nowts r a tpi st).1
  | .checkSys nowts r a rep tpi => (DPM.checkSyslog nowts r a rep tpi st).1

/-- Apply an interleaving of passes to the log scanner's state. -/
def runLog (st : List ScanEVL4Log.LogEntry) (ops : List LogOp) : List ScanEVL4Log.LogEntry :=
  ops.foldl stepLog st

/-! ### Generic lemmas about the embedded dictionary operations -/

theorem pruneByKey_length_le {α : Type} (m : Nat) (key : α → Nat) (l : List α)
    (h : (l.map key).Nodup) : (pruneByKey m key l).length ≤ m := by
  unfold pruneByKey pruneKeep
  have hperm : List.Perm (List.insertionSort (· ≤ ·) (l.map key)) (l.map key) :=
    List.perm_insertionSort _ _
  set keys := List.insertionSort (· ≤ ·) (l.map key) with hkeys
  have hlen : keys.length = l.length := by
    rw [hperm.length_eq, List.length_map]
  set popLim := if keys.length > m then keys.length - m else 0 with hpop
  set keep := keys.drop popLim with hkeep
  set res := l.filter (fun e => keep.contains (key e)) with hres
  have hsub : List.Sublist res l := List.filter_sublist l
  have hnd : (res.map key).Nodup := h.sublist (hsub.map key)
  have hsubset : res.map key ⊆ keep := by
    intro a ha
    rcases List.mem_map.mp ha with ⟨e, he, rfl⟩
    have := List.of_mem_filter he
    simpa using this
  have h1 : (res.map key).length ≤ keep.length :=
    (hnd.subperm hsubset).length_le
  have h2 : keep.length = keys.length - popLim := List.length_drop _ _
  have h3 : res.length = (res.map key).length := (List.length_map _ _).symm
  rcases Nat.lt_or_ge m keys.length with hc | hc
  · have hp : popLim = keys.length - m := by rw [hpop, if_pos hc]
    omega
  · have hp : popLim = 0 := by rw [hpop, if_neg (by omega : ¬keys.length > m)]
    omega

theorem mem_map_fst_dictInsert {α : Type} (k a : Nat) (v : α) (d : List (Nat × α)) :
    a ∈ (dictInsert k v d).map Prod.fst ↔ a = k ∨ a ∈ d.map Prod.fst := by
  induction d with
  | nil => simp [dictInsert]
  | cons e rest ih =>
    by_cases hk : e.1 = k
    · simp [dictInsert, hk]
      try tauto
    · simp [dictInsert, hk, ih]
      try tauto

theorem nodup_dictInsert {α : Type} (k : Nat) (v : α) (d : List (Nat × α))
    (h : (d.map Prod.fst).Nodup) : ((dictInsert k v d).map Prod.fst).Nodup := by
  induction d with
  | nil => simp [dictInsert]
  | cons e rest ih =>
    simp only [List.map_cons, List.nodup_cons] at h
    by_cases hk : e.1 = k
    · simp only [dictInsert, hk, if_true, List.map_cons, List.nodup_cons]
      exact ⟨by rw [← hk]; exact h.1, h.2⟩
    · simp only [dictInsert, hk, if_false, List.map_cons, List.nodup_cons]
      refine ⟨?_, ih h.2⟩
      intro hmem
      rcases (mem_map_fst_dictInsert k e.1 v rest).mp hmem with h1 | h1
      · exact hk h1
      · exact h.1 h1

theorem eq_of_mem_nodup_key {α : Type} (key : α → Nat) (l : List α)
    (h : (l.map key).Nodup) (a b : α) (ha : a ∈ l) (hb : b ∈ l)
    (hk : key a = key b) : a = b := by
  induction l with
  | nil => cases ha
  | cons e rest ih =>
    simp only [List.map_cons, List.nodup_cons] at h
    rcases List.mem_cons.mp ha with rfl | ha'
    · rcases List.mem_cons.mp hb with rfl | hb'
      · rfl
      · exact absurd (hk ▸ List.mem_map_of_mem key hb') h.1
    · rcases List.mem_cons.mp hb with rfl | hb'
      · exact absurd (hk ▸ List.mem_map_of_mem key ha') h.1
      · exact ih h.2 ha' hb'

theorem mem_map_ts_insertCID (ts a : Nat) (cid : String) (st : List ScanEVL4Log.LogEntry) :
    a ∈ (ScanEVL4Log.insertCID ts cid st).map ScanEVL4Log.LogEntry.ts ↔
      a = ts ∨ a ∈ st.map ScanEVL4Log.LogEntry.ts := by
  induction st with
  | nil => simp [ScanEVL4Log.insertCID]
  | cons e rest ih =>
    by_cases hk : e.ts = ts
    · simp [ScanEVL4Log.insertCID, hk]
      try tauto
    · simp [ScanEVL4Log.insertCID, hk, ih]
      try tauto

theorem nodup_insertCID (ts : Nat) (cid : String) (st : List ScanEVL4Log.LogEntry)
    (h : (st.map ScanEVL4Log.LogEntry.ts).Nodup) :
    ((ScanEVL4Log.insertCID ts cid st).map ScanEVL4Log.LogEntry.ts).Nodup := by
  induction st with
  | nil => simp [ScanEVL4Log.insertCID]
  | cons e rest ih =>
    simp only [List.map_cons, List.nodup_cons] at h
    by_cases hk : e.ts = ts
    · simp only [ScanEVL4Log.insertCID, hk, if_true, List.map_cons, List.nodup_cons]
      exact ⟨by rw [← hk]; exact h.1, h.2⟩
    · simp only [ScanEVL4Log.insertCID, hk, if_false, List.map_cons, List.nodup_cons]
      refine ⟨?_, ih h.2⟩
      intro hmem
      rcases (mem_map_ts_insertCID ts e.ts cid rest).mp hmem with h1 | h1
      · exact hk h1
      · exact h.1 h1

theorem find?_ts_flagAsReported (k k' : Nat) (st : List ScanEVL4Log.LogEntry) :
    (ScanEVL4Log.flagAsReportedCID k' st).find? (fun e => e.ts = k) =
      (st.find? (fun e => e.ts = k)).map
        (fun e => if e.ts = k' then ⟨e.ts, e.cid, true⟩ else e) := by
  induction st with
  | nil => rfl
  | cons e rest ih =>
    simp only [ScanEVL4Log.flagAsReportedCID, List.map_cons]
    by_cases he : e.ts = k
    · have h1 : ((if e.ts = k' then (⟨e.ts, e.cid, true⟩ : ScanEVL4Log.LogEntry)
          else e)).ts = k := by
        split <;> simp [he]
      rw [List.find?_cons_of_pos _ (by simpa using h1),
        List.find?_cons_of_pos _ (by simpa using he)]
      simp
    · have h1 : ((if e.ts = k' then (⟨e.ts, e.cid, true⟩ : ScanEVL4Log.LogEntry)
          else e)).ts ≠ k := by
        split <;> simp [he]
      rw [List.find?_cons_of_neg _ (by simpa using h1),
        List.find?_cons_of_neg _ (by simpa using he)]
      exact ih

theorem flagOf_flagAsReported (k k' : Nat) (st : List ScanEVL4Log.LogEntry) :
    ScanEVL4Log.flagOf k (ScanEVL4Log.flagAsReportedCID k' st) =
      (st.find? (fun e => e.ts = k)).map
        (fun e => if e.ts = k' then true else e.reported) := by
  unfold ScanEVL4Log.flagOf
  rw [find?_ts_flagAsReported]
  cases st.find? (fun e => e.ts = k) with
  | none => rfl
  | some e =>
    by_cases h : e.ts = k'
    · simp [h]
    · simp [h]

theorem flagOf_flag_self (k : Nat) (b : Bool) (st : List ScanEVL4Log.LogEntry)
    (h : ScanEVL4Log.flagOf k st = some b) :
    ScanEVL4Log.flagOf k (ScanEVL4Log.flagAsReportedCID k st) = some true := by
  unfold ScanEVL4Log.flagOf at h
  rw [flagOf_flagAsReported]
  cases hf : st.find? (fun e => e.ts = k) with
  | none => rw [hf] at h; cases h
  | some e =>
    have hts : e.ts = k := by simpa using List.find?_some hf
    simp [hts]

theorem flagOf_flag_other (k k' : Nat) (st : List ScanEVL4Log.LogEntry) (hne : k ≠ k') :
    ScanEVL4Log.flagOf k (ScanEVL4Log.flagAsReportedCID k' st) = ScanEVL4Log.flagOf k st := by
  rw [flagOf_flagAsReported]
  unfold ScanEVL4Log.flagOf
  cases hf : st.find? (fun e => e.ts = k) with
  | none => rfl
  | some e =>
    have hts : e.ts = k := by simpa using List.find?_some hf
    simp [hts, hne]

theorem flagOf_flag_true (k k' : Nat) (st : List ScanEVL4Log.LogEntry)
    (h : ScanEVL4Log.flagOf k st = some true) :
    ScanEVL4Log.flagOf k (ScanEVL4Log.flagAsReportedCID k' st) = some true := by
  by_cases hk : k = k'
  · exact hk ▸ flagOf_flag_self k true st (hk ▸ h)
  · rw [flagOf_flag_other k k' st hk]; exact h

theorem flagOf_foldl_flag_true (k : Nat) (ms : List (Nat × String))
    (st : List ScanEVL4Log.LogEntry) (h : ScanEVL4Log.flagOf k st = some true) :
    ScanEVL4Log.flagOf k
      (ms.foldl (fun s r => ScanEVL4Log.flagAsReportedCID r.1 s) st) = some true := by
  induction ms generalizing st with
  | nil => exact h
  | cons m rest ih => exact ih _ (flagOf_flag_true k m.1 st h)

theorem flagOf_foldl_flag_not_mem (k : Nat) (ms : List (Nat × String))
    (st : List ScanEVL4Log.LogEntry) (h : ∀ r ∈ ms, r.1 ≠ k) :
    ScanEVL4Log.flagOf k
      (ms.foldl (fun s r => ScanEVL4Log.flagAsReportedCID r.1 s) st) =
      ScanEVL4Log.flagOf k st := by
  induction ms generalizing st with
  | nil => rfl
  | cons m rest ih =>
    have h1 : k ≠ m.1 := fun hk => h m (List.mem_cons_self _ _) hk.symm
    simp only [List.foldl_cons]
    rw [ih _ (fun r hr => h r (List.mem_cons_of_mem _ hr)), flagOf_flag_other k m.1 st h1]

theorem flagOf_foldl_flag_mem (k : Nat) (c : String) (b : Bool) (ms : List (Nat × String))
    (st : List ScanEVL4Log.LogEntry) (hm : (k, c) ∈ ms)
    (h : ScanEVL4Log.flagOf k st = some b) :
    ScanEVL4Log.flagOf k
      (ms.foldl (fun s r => ScanEVL4Log.flagAsReportedCID r.1 s) st) = some true := by
  induction ms generalizing st with
  | nil => cases hm
  | cons m rest ih =>
    simp only [List.foldl_cons]
    rcases List.mem_cons.mp hm with rfl | hm'
    · exact flagOf_foldl_flag_true k rest _ (flagOf_flag_self k b st h)
    · by_cases hk : k = m.1
      · refine flagOf_foldl_flag_true k rest _ ?_
        rw [← hk]
        exact flagOf_flag_self k b st h
      · have h2 : ScanEVL4Log.flagOf k (ScanEVL4Log.flagAsReportedCID m.1 st) = some b := by
          rw [flagOf_flag_other k m.1 st hk]; exact h
        exact ih _ hm' h2

theorem find?_eq_some_of_mem_nodup (st : List ScanEVL4Log.LogEntry)
    (h : (st.map ScanEVL4Log.LogEntry.ts).Nodup) (e : ScanEVL4Log.LogEntry)
    (he : e ∈ st) : st.find? (fun x => x.ts = e.ts) = some e := by
  induction st with
  | nil => cases he
  | cons a rest ih =>
    simp only [List.map_cons, List.nodup_cons] at h
    rcases List.mem_cons.mp he with rfl | he'
    · rw [List.find?_cons_of_pos _ (by simp)]
    · have hne : a.ts ≠ e.ts := by
        intro hts
        exact h.1 (hts ▸ List.mem_map_of_mem ScanEVL4Log.LogEntry.ts he')
      rw [List.find?_cons_of_neg _ (by simpa using hne)]
      exact ih h.2 he'

theorem flagOf_eq_of_mem (st : List ScanEVL4Log.LogEntry)
    (h : (st.map ScanEVL4Log.LogEntry.ts).Nodup) (e : ScanEVL4Log.LogEntry)
    (he : e ∈ st) : ScanEVL4Log.flagOf e.ts st = some e.reported := by
  unfold ScanEVL4Log.flagOf
  rw [find?_eq_some_of_mem_nodup st h e he]
  rfl

theorem nodup_ts_filter (p : ScanEVL4Log.LogEntry → Bool) (st : List ScanEVL4Log.LogEntry)
    (h : (st.map ScanEVL4Log.LogEntry.ts).Nodup) :
    ((st.filter p).map ScanEVL4Log.LogEntry.ts).Nodup :=
  h.sublist ((List.filter_sublist st).map ScanEVL4Log.LogEntry.ts)

theorem flagOf_filter (p : ScanEVL4Log.LogEntry → Bool) (k : Nat) (b : Bool)
    (st : List ScanEVL4Log.LogEntry) (hnd : (st.map ScanEVL4Log.LogEntry.ts).Nodup)
    (h : ScanEVL4Log.flagOf k st = some b) :
    ScanEVL4Log.flagOf k (st.filter p) = some b ∨
      ScanEVL4Log.flagOf k (st.filter p) = none := by
  unfold ScanEVL4Log.flagOf at h
  cases hf : st.find? (fun e => e.ts = k) with
  | none => rw [hf] at h; cases h
  | some e =>
    rw [hf] at h
    have hts : e.ts = k := by simpa using List.find?_some hf
    have hmem : e ∈ st := List.mem_of_find?_eq_some hf
    have hb : e.reported = b := by simpa using h
    by_cases hp : p e = true
    · left
      have hmf : e ∈ st.filter p := List.mem_filter.mpr ⟨hmem, hp⟩
      have := flagOf_eq_of_mem (st.filter p) (nodup_ts_filter p st hnd) e hmf
      rw [hts, hb] at this
      exact this
    · right
      unfold ScanEVL4Log.flagOf
      have hnone : (st.filter p).find? (fun e => e.ts = k) = none := by
        rw [List.find?_eq_none]
        intro x hx
        simp only [decide_eq_true_eq]
        intro hxk
        have hxs : x ∈ st := (List.mem_filter.mp hx).1
        have : x = e := eq_of_mem_nodup_key ScanEVL4Log.LogEntry.ts st hnd x e hxs hmem
          (by rw [hxk, hts])
        exact hp (this ▸ (List.mem_filter.mp hx).2)
      rw [hnone]
      rfl

theorem flagOf_insertCID_other (k ts : Nat) (cid : String)
    (st : List ScanEVL4Log.LogEntry) (hne : ts ≠ k) :
    ScanEVL4Log.flagOf k (ScanEVL4Log.insertCID ts cid st) = ScanEVL4Log.flagOf k st := by
  induction st with
  | nil => simp [ScanEVL4Log.insertCID, ScanEVL4Log.flagOf, hne]
  | cons e rest ih =>
    by_cases he : e.ts = ts
    · unfold ScanEVL4Log.insertCID ScanEVL4Log.flagOf
      rw [if_pos he]
      rw [List.find?_cons_of_neg _ (by simpa using hne),
        List.find?_cons_of_neg _ (by simp [he, hne])]
    · unfold ScanEVL4Log.insertCID ScanEVL4Log.flagOf
      rw [if_neg he]
      by_cases hek : e.ts = k
      · rw [List.find?_cons_of_pos _ (by simpa using hek),
          List.find?_cons_of_pos _ (by simpa using hek)]
      · rw [List.find?_cons_of_neg _ (by simpa using hek),
          List.find?_cons_of_neg _ (by simpa using hek)]
        exact ih

theorem flagOf_foldl_insert_fresh (k : Nat) (recs : List (Nat × String))
    (st : List ScanEVL4Log.LogEntry) (h : ∀ r ∈ recs, r.1 ≠ k) :
    ScanEVL4Log.flagOf k (recs.foldl (fun s r => ScanEVL4Log.insertCID r.1 r.2 s) st) =
      ScanEVL4Log.flagOf k st := by
  induction recs generalizing st with
  | nil => rfl
  | cons r rest ih =>
    simp only [List.foldl_cons]
    rw [ih _ (fun x hx => h x (List.mem_cons_of_mem _ hx)),
      flagOf_insertCID_other k r.1 r.2 st (h r (List.mem_cons_self _ _))]

theorem nodup_foldl_insertCID (recs : List (Nat × String))
    (st : List ScanEVL4Log.LogEntry) (h : (st.map ScanEVL4Log.LogEntry.ts).Nodup) :
    ((recs.foldl (fun s r => ScanEVL4Log.insertCID r.1 r.2 s) st).map
      ScanEVL4Log.LogEntry.ts).Nodup := by
  induction recs generalizing st with
  | nil => exact h
  | cons r rest ih =>
    simp only [List.foldl_cons]
    exact ih _ (nodup_insertCID r.1 r.2 st h)

theorem map_ts_flagAsReported (k : Nat) (st : List ScanEVL4Log.LogEntry) :
    (ScanEVL4Log.flagAsReportedCID k st).map ScanEVL4Log.LogEntry.ts =
      st.map ScanEVL4Log.LogEntry.ts := by
  unfold ScanEVL4Log.flagAsReportedCID
  rw [List.map_map]
  apply List.map_congr_left
  intro e _
  simp only [Function.comp_apply]
  split <;> rfl

theorem map_ts_foldl_flag (ms : List (Nat × String)) (st : List ScanEVL4Log.LogEntry) :
    ((ms.foldl (fun s r => ScanEVL4Log.flagAsReportedCID r.1 s) st).map
      ScanEVL4Log.LogEntry.ts) = st.map ScanEVL4Log.LogEntry.ts := by
  induction ms generalizing st with
  | nil => rfl
  | cons m rest ih =>
    simp only [List.foldl_cons]
    rw [ih, map_ts_flagAsReported]

theorem mem_candidateCIDs (k : Nat) (c : String) (st : List ScanEVL4Log.LogEntry) :
    (k, c) ∈ ScanEVL4Log.candidateCIDs st ↔
      ∃ e, e ∈ st ∧ e.ts = k ∧ e.cid = c ∧ e.reported = false := by
  unfold ScanEVL4Log.candidateCIDs
  simp only [List.mem_map, List.mem_filter, Prod.mk.injEq, decide_eq_true_eq]
  constructor
  · rintro ⟨e, ⟨he, hrep⟩, hk, hc⟩
    exact ⟨e, he, hk, hc, hrep⟩
  · rintro ⟨e, he, hk, hc, hrep⟩
    exact ⟨e, ⟨he, hrep⟩, hk, hc⟩

theorem nodup_fst_candidateCIDs (st : List ScanEVL4Log.LogEntry)
    (h : (st.map ScanEVL4Log.LogEntry.ts).Nodup) :
    ((ScanEVL4Log.candidateCIDs st).map Prod.fst).Nodup := by
  unfold ScanEVL4Log.candidateCIDs
  rw [List.map_map]
  have : (Prod.fst ∘ fun e : ScanEVL4Log.LogEntry => (e.ts, e.cid)) =
      ScanEVL4Log.LogEntry.ts := rfl
  rw [this]
  exact nodup_ts_filter _ st h

theorem mem_recentCandidates (nowts RECENT_SECS : Nat) (r : Nat × String)
    (st : List ScanEVL4Log.LogEntry) :
    r ∈ DPM.recentCandidates nowts RECENT_SECS st ↔
      r ∈ ScanEVL4Log.candidateCIDs st ∧ Nat.dist nowts r.1 ≤ RECENT_SECS := by
  unfold DPM.recentCandidates
  simp [List.mem_filter]

theorem nodup_fst_recentCandidates (nowts RECENT_SECS : Nat)
    (st : List ScanEVL4Log.LogEntry) (h : (st.map ScanEVL4Log.LogEntry.ts).Nodup) :
    ((DPM.recentCandidates nowts RECENT_SECS st).map Prod.fst).Nodup :=
  (nodup_fst_candidateCIDs st h).sublist
    ((List.filter_sublist _).map Prod.fst)

theorem flagOf_of_mem_recent (nowts RECENT_SECS : Nat) (u : Nat × String)
    (st : List ScanEVL4Log.LogEntry) (hnd : (st.map ScanEVL4Log.LogEntry.ts).Nodup)
    (hu : u ∈ DPM.recentCandidates nowts RECENT_SECS st) :
    ScanEVL4Log.flagOf u.1 st = some false := by
  have hc := ((mem_recentCandidates nowts RECENT_SECS u st).mp hu).1
  rcases (mem_candidateCIDs u.1 u.2 st).mp (by simpa using hc) with ⟨e, he, hts, _, hrep⟩
  have := flagOf_eq_of_mem st hnd e he
  rw [hts, hrep] at this
  exact this

theorem matched_unmatched_ne_key (nowts RECENT_SECS ADJACENT_SECS : Nat)
    (msg03txt : List (Nat × String)) (st : List ScanEVL4Log.LogEntry)
    (hnd : (st.map ScanEVL4Log.LogEntry.ts).Nodup) (p q : Nat × String)
    (hp : p ∈ DPM.matchedCandidates nowts RECENT_SECS ADJACENT_SECS msg03txt st)
    (hq : q ∈ DPM.unmatchedCandidates nowts RECENT_SECS ADJACENT_SECS msg03txt st) :
    p.1 ≠ q.1 := by
  intro hkey
  have hp' := List.mem_filter.mp hp
  have hq' := List.mem_filter.mp hq
  have hpq : p = q := eq_of_mem_nodup_key Prod.fst _
    (nodup_fst_recentCandidates nowts RECENT_SECS st hnd) p q hp'.1 hq'.1 hkey
  rw [hpq] at hp'
  have h1 := hp'.2
  have h2 := hq'.2
  rw [h1] at h2
  cases h2

/-- C1: when a recent unreported log-scanner candidate matches a protocol
contact-id history entry within `adjacentSecs` (both recent), `scanSyslog`
flags that log entry reported and the log-path alert (if any) comes from a
different entry; and when recent candidates are unmatched, the
chronologically oldest unmatched one is flagged reported and returned, the
other unmatched candidates staying unreported. -/
theorem C1_scanSyslog_single_alert
    (nowts RECENT_SECS ADJACENT_SECS : Nat) (msg03txt : List (Nat × String))
    (st : List ScanEVL4Log.LogEntry)
    (hnd : (st.map ScanEVL4Log.LogEntry.ts).Nodup) :
    (∀ e ∈ st, e.reported = false → Nat.dist nowts e.ts ≤ RECENT_SECS →
      ∀ t ∈ msg03txt, pyStrip "CID=" t.2 = e.cid →
        Nat.dist (t.1 / 1000000000) e.ts ≤ ADJACENT_SECS →
        Nat.dist nowts (t.1 / 1000000000) ≤ RECENT_SECS →
        ScanEVL4Log.flagOf e.ts
          (DPM.scanSyslog nowts RECENT_SECS ADJACENT_SECS msg03txt st).1 = some true ∧
        ∀ w, (DPM.scanSyslog nowts RECENT_SECS ADJACENT_SECS msg03txt st).2 = some w →
          w.1 ≠ e.ts) ∧
    (DPM.unmatchedCandidates nowts RECENT_SECS ADJACENT_SECS msg03txt st ≠ [] →
      ∃ w, (DPM.scanSyslog nowts RECENT_SECS ADJACENT_SECS msg03txt st).2 = some w ∧
        w ∈ DPM.unmatchedCandidates nowts RECENT_SECS ADJACENT_SECS msg03txt st ∧
        (∀ u ∈ DPM.unmatchedCandidates nowts RECENT_SECS ADJACENT_SECS msg03txt st,
          w.1 ≤ u.1) ∧
        ScanEVL4Log.flagOf w.1
          (DPM.scanSyslog nowts RECENT_SECS ADJACENT_SECS msg03txt st).1 = some true ∧
        (∀ u ∈ DPM.unmatchedCandidates nowts RECENT_SECS ADJACENT_SECS msg03txt st,
          u.1 ≠ w.1 → ScanEVL4Log.flagOf u.1
            (DPM.scanSyslog nowts RECENT_SECS ADJACENT_SECS msg03txt st).1 =
              some false)) := by
  constructor
  · intro e he hrep hdist t ht hstrip hadj _
    have hcand : (e.ts, e.cid) ∈ ScanEVL4Log.candidateCIDs st :=
      (mem_candidateCIDs e.ts e.cid st).mpr ⟨e, he, rfl, rfl, hrep⟩
    have hrec : (e.ts, e.cid) ∈ DPM.recentCandidates nowts RECENT_SECS st :=
      (mem_recentCandidates nowts RECENT_SECS _ st).mpr ⟨hcand, by simpa using hdist⟩
    have hmatch : DPM.tpiMatchB ADJACENT_SECS msg03txt (e.ts, e.cid) = true := by
      unfold DPM.tpiMatchB
      rw [List.any_eq_true]
      exact ⟨t, ht, by simp [hstrip, hadj]⟩
    have hM : (e.ts, e.cid) ∈
        DPM.matchedCandidates nowts RECENT_SECS ADJACENT_SECS msg03txt st :=
      List.mem_filter.mpr ⟨hrec, hmatch⟩
    have hflag0 : ScanEVL4Log.flagOf e.ts st = some false := by
      have := flagOf_eq_of_mem st hnd e he
      rw [hrep] at this
      exact this
    have hst1 : ScanEVL4Log.flagOf e.ts
        (DPM.scanSyslogFlagged nowts RECENT_SECS ADJACENT_SECS msg03txt st) = some true :=
      flagOf_foldl_flag_mem e.ts e.cid false _ st hM hflag0
    cases hsort : List.insertionSort (· ≤ ·)
        ((DPM.unmatchedCandidates nowts RECENT_SECS ADJACENT_SECS msg03txt st).map
          Prod.fst) with
    | nil =>
      unfold DPM.scanSyslog
      rw [hsort]
      refine ⟨hst1, ?_⟩
      intro w hw
      cases hw
    | cons k rest =>
      unfold DPM.scanSyslog
      rw [hsort]
      refine ⟨flagOf_flag_true e.ts k _ hst1, ?_⟩
      intro w hw hkey
      have hwU : w ∈ DPM.unmatchedCandidates nowts RECENT_SECS ADJACENT_SECS msg03txt st :=
        List.mem_of_find?_eq_some hw
      exact matched_unmatched_ne_key nowts RECENT_SECS ADJACENT_SECS msg03txt st hnd
        (e.ts, e.cid) w hM hwU (by simp [hkey])
  · intro hne
    have hlen : (List.insertionSort (· ≤ ·)
        ((DPM.unmatchedCandidates nowts RECENT_SECS ADJACENT_SECS msg03txt st).map
          Prod.fst)).length =
        (DPM.unmatchedCandidates nowts RECENT_SECS ADJACENT_SECS msg03txt st).length := by
      rw [(List.perm_insertionSort _ _).length_eq, List.length_map]
    cases hsort : List.insertionSort (· ≤ ·)
        ((DPM.unmatchedCandidates nowts RECENT_SECS ADJACENT_SECS msg03txt st).map
          Prod.fst) with
    | nil =>
      exfalso
      apply hne
      rw [hsort] at hlen
      exact List.length_eq_zero.mp hlen.symm
    | cons k rest =>
      have hkmem : k ∈ (DPM.unmatchedCandidates nowts RECENT_SECS ADJACENT_SECS
          msg03txt st).map Prod.fst := by
        have hk : k ∈ List.insertionSort (· ≤ ·)
            ((DPM.unmatchedCandidates nowts RECENT_SECS ADJACENT_SECS msg03txt st).map
              Prod.fst) := by
          rw [hsort]; exact List.mem_cons_self _ _
        exact (List.perm_insertionSort _ _).mem_iff.mp hk
      have hfind : ∃ w, (DPM.unmatchedCandidates nowts RECENT_SECS ADJACENT_SECS
          msg03txt st).find? (fun r => r.1 == k) = some w := by
        rcases List.mem_map.mp hkmem with ⟨w, hwU, hwk⟩
        have hs : ((DPM.unmatchedCandidates nowts RECENT_SECS ADJACENT_SECS
            msg03txt st).find? (fun r => r.1 == k)).isSome := by
          rw [List.find?_isSome]
          exact ⟨w, hwU, by simp [hwk]⟩
        exact Option.isSome_iff_exists.mp hs
      rcases hfind with ⟨w, hw⟩
      have hwU : w ∈ DPM.unmatchedCandidates nowts RECENT_SECS ADJACENT_SECS msg03txt st :=
        List.mem_of_find?_eq_some hw
      have hwk : w.1 = k := by simpa using List.find?_some hw
      have hsorted := List.sorted_insertionSort (· ≤ ·)
        ((DPM.unmatchedCandidates nowts RECENT_SECS ADJACENT_SECS msg03txt st).map
          Prod.fst)
      rw [hsort] at hsorted
      have hmin : ∀ u ∈ DPM.unmatchedCandidates nowts RECENT_SECS ADJACENT_SECS
          msg03txt st, w.1 ≤ u.1 := by
        intro u hu
        have humem : u.1 ∈ List.insertionSort (· ≤ ·)
            ((DPM.unmatchedCandidates nowts RECENT_SECS ADJACENT_SECS msg03txt st).map
              Prod.fst) :=
          (List.perm_insertionSort _ _).mem_iff.mpr (List.mem_map_of_mem Prod.fst hu)
        rw [hsort] at humem
        rcases List.mem_cons.mp humem with h1 | h1
        · rw [hwk, h1]
        · rw [hwk]
          exact (List.sorted_cons.mp hsorted).1 u.1 h1
      have hwnotM : ∀ r ∈ DPM.matchedCandidates nowts RECENT_SECS ADJACENT_SECS
          msg03txt st, r.1 ≠ w.1 := by
        intro r hr
        exact matched_unmatched_ne_key nowts RECENT_SECS ADJACENT_SECS msg03txt st hnd
          r w hr hwU
      have hwst1 : ScanEVL4Log.flagOf w.1
          (DPM.scanSyslogFlagged nowts RECENT_SECS ADJACENT_SECS msg03txt st) =
          some false := by
        unfold DPM.scanSyslogFlagged
        rw [flagOf_foldl_flag_not_mem w.1 _ st hwnotM]
        exact flagOf_of_mem_recent nowts RECENT_SECS w st hnd (List.mem_filter.mp hwU).1
      refine ⟨w, ?_, hwU, hmin, ?_, ?_⟩
      · unfold DPM.scanSyslog
        rw [hsort]
        exact hw
      · unfold DPM.scanSyslog
        rw [hsort]
        show ScanEVL4Log.flagOf w.1 (ScanEVL4Log.flagAsReportedCID k
          (DPM.scanSyslogFlagged nowts RECENT_SECS ADJACENT_SECS msg03txt st)) = some true
        rw [← hwk]
        exact flagOf_flag_self w.1 false _ hwst1
      · intro u hu hune
        unfold DPM.scanSyslog
        rw [hsort]
        have hunotM : ∀ r ∈ DPM.matchedCandidates nowts RECENT_SECS ADJACENT_SECS
            msg03txt st, r.1 ≠ u.1 := by
          intro r hr
          exact matched_unmatched_ne_key nowts RECENT_SECS ADJACENT_SECS msg03txt st hnd
            r u hr hu
        have hust1 : ScanEVL4Log.flagOf u.1
            (DPM.scanSyslogFlagged nowts RECENT_SECS ADJACENT_SECS msg03txt st) =
            some false := by
          unfold DPM.scanSyslogFlagged
          rw [flagOf_foldl_flag_not_mem u.1 _ st hunotM]
          exact flagOf_of_mem_recent nowts RECENT_SECS u st hnd (List.mem_filter.mp hu).1
        have huk : u.1 ≠ k := by rw [← hwk]; exact hune
        calc ScanEVL4Log.flagOf u.1 (ScanEVL4Log.flagAsReportedCID k
            (DPM.scanSyslogFlagged nowts RECENT_SECS ADJACENT_SECS msg03txt st)) =
            ScanEVL4Log.flagOf u.1
              (DPM.scanSyslogFlagged nowts RECENT_SECS ADJACENT_SECS msg03txt st) :=
          flagOf_flag_other u.1 k _ huk
        _ = some false := hust1

theorem pruneByKey_sublist {α : Type} (m : Nat) (key : α → Nat) (l : List α) :
    List.Sublist (pruneByKey m key l) l :=
  List.filter_sublist l

theorem flagOf_none_iff (k : Nat) (st : List ScanEVL4Log.LogEntry) :
    ScanEVL4Log.flagOf k st = none ↔ st.find? (fun e => e.ts = k) = none := by
  unfold ScanEVL4Log.flagOf
  cases st.find? (fun e => e.ts = k) <;> simp

theorem flagOf_flag_none (k k' : Nat) (st : List ScanEVL4Log.LogEntry)
    (h : ScanEVL4Log.flagOf k st = none) :
    ScanEVL4Log.flagOf k (ScanEVL4Log.flagAsReportedCID k' st) = none := by
  rw [flagOf_flagAsReported]
  rw [flagOf_none_iff] at h
  rw [h]
  rfl

theorem flagOf_foldl_flag_none (k : Nat) (ms : List (Nat × String))
    (st : List ScanEVL4Log.LogEntry) (h : ScanEVL4Log.flagOf k st = none) :
    ScanEVL4Log.flagOf k
      (ms.foldl (fun s r => ScanEVL4Log.flagAsReportedCID r.1 s) st) = none := by
  induction ms generalizing st with
  | nil => exact h
  | cons m rest ih => exact ih _ (flagOf_flag_none k m.1 st h)

theorem flagOf_filter_none (p : ScanEVL4Log.LogEntry → Bool) (k : Nat)
    (st : List ScanEVL4Log.LogEntry) (h : ScanEVL4Log.flagOf k st = none) :
    ScanEVL4Log.flagOf k (st.filter p) = none := by
  rw [flagOf_none_iff] at h ⊢
  rw [List.find?_eq_none] at h ⊢
  intro x hx
  exact h x (List.mem_filter.mp hx).1

theorem flagOf_scanSyslog_true (nowts RECENT_SECS ADJACENT_SECS k : Nat)
    (msg03txt : List (Nat × String)) (st : List ScanEVL4Log.LogEntry)
    (h : ScanEVL4Log.flagOf k st = some true) :
    ScanEVL4Log.flagOf k
      (DPM.scanSyslog nowts RECENT_SECS ADJACENT_SECS msg03txt st).1 = some true := by
  have hflagged : ScanEVL4Log.flagOf k
      (DPM.scanSyslogFlagged nowts RECENT_SECS ADJACENT_SECS msg03txt st) = some true :=
    flagOf_foldl_flag_true k _ st h
  unfold DPM.scanSyslog
  split
  · exact hflagged
  · exact flagOf_flag_true k _ _ hflagged

theorem flagOf_scanSyslog_none (nowts RECENT_SECS ADJACENT_SECS k : Nat)
    (msg03txt : List (Nat × String)) (st : List ScanEVL4Log.LogEntry)
    (h : ScanEVL4Log.flagOf k st = none) :
    ScanEVL4Log.flagOf k
      (DPM.scanSyslog nowts RECENT_SECS ADJACENT_SECS msg03txt st).1 = none := by
  have hflagged : ScanEVL4Log.flagOf k
      (DPM.scanSyslogFlagged nowts RECENT_SECS ADJACENT_SECS msg03txt st) = none :=
    flagOf_foldl_flag_none k _ st h
  unfold DPM.scanSyslog
  split
  · exact hflagged
  · exact flagOf_flag_none k _ _ hflagged

theorem flagOf_checkSyslog_true (nowts RECENT_SECS ADJACENT_SECS k : Nat) (isReptd : Bool)
    (msg03txt : List (Nat × String)) (st : List ScanEVL4Log.LogEntry)
    (h : ScanEVL4Log.flagOf k st = some true) :
    ScanEVL4Log.flagOf k
      (DPM.checkSyslog nowts RECENT_SECS ADJACENT_SECS isReptd msg03txt st).1 =
      some true := by
  unfold DPM.checkSyslog
  repeat' split
  all_goals first
    | exact h
    | exact flagOf_flag_true k _ _ h

theorem flagOf_checkSyslog_none (nowts RECENT_SECS ADJACENT_SECS k : Nat) (isReptd : Bool)
    (msg03txt : List (Nat × String)) (st : List ScanEVL4Log.LogEntry)
    (h : ScanEVL4Log.flagOf k st = none) :
    ScanEVL4Log.flagOf k
      (DPM.checkSyslog nowts RECENT_SECS ADJACENT_SECS isReptd msg03txt st).1 = none := by
  unfold DPM.checkSyslog
  repeat' split
  all_goals first
    | exact h
    | exact flagOf_flag_none k _ _ h

theorem map_ts_scanSyslog1 (nowts RECENT_SECS ADJACENT_SECS : Nat)
    (msg03txt : List (Nat × String)) (st : List ScanEVL4Log.LogEntry) :
    (DPM.scanSyslog nowts RECENT_SECS ADJACENT_SECS msg03txt st).1.map
      ScanEVL4Log.LogEntry.ts = st.map ScanEVL4Log.LogEntry.ts := by
  unfold DPM.scanSyslog
  split
  · exact map_ts_foldl_flag _ st
  · rw [map_ts_flagAsReported]
    exact map_ts_foldl_flag _ st

theorem map_ts_checkSyslog1 (nowts RECENT_SECS ADJACENT_SECS : Nat) (isReptd : Bool)
    (msg03txt : List (Nat × String)) (st : List ScanEVL4Log.LogEntry) :
    (DPM.checkSyslog nowts RECENT_SECS ADJACENT_SECS isReptd msg03txt st).1.map
      ScanEVL4Log.LogEntry.ts = st.map ScanEVL4Log.LogEntry.ts := by
  unfold DPM.checkSyslog
  repeat' split
  all_goals first
    | rfl
    | exact map_ts_flagAsReported _ st

theorem nodup_stepLog (st : List ScanEVL4Log.LogEntry) (op : LogOp)
    (h : (st.map ScanEVL4Log.LogEntry.ts).Nodup) :
    ((stepLog st op).map ScanEVL4Log.LogEntry.ts).Nodup := by
  cases op with
  | scan recs =>
    show ((ScanEVL4Log.getLogRecsWithCID recs st).map ScanEVL4Log.LogEntry.ts).Nodup
    unfold ScanEVL4Log.getLogRecsWithCID ScanEVL4Log.doPruning
    exact (nodup_foldl_insertCID recs st h).sublist
      ((pruneByKey_sublist _ _ _).map ScanEVL4Log.LogEntry.ts)
  | flagRep k =>
    show ((ScanEVL4Log.flagAsReportedCID k st).map ScanEVL4Log.LogEntry.ts).Nodup
    rw [map_ts_flagAsReported]
    exact h
  | scanSys nowts r a tpi =>
    show (((DPM.scanSyslog nowts r a tpi st).1).map ScanEVL4Log.LogEntry.ts).Nodup
    rw [map_ts_scanSyslog1]
    exact h
  | checkSys nowts r a rep tpi =>
    show (((DPM.checkSyslog nowts r a rep tpi st).1).map ScanEVL4Log.LogEntry.ts).Nodup
    rw [map_ts_checkSyslog1]
    exact h

/-- C9 (counterexample): the reported flag is not one-way across log-scan
passes.  A scan pass that inserts a record at an already-present timestamp
key (two CID log lines within the same second) overwrites the entry and
resets its flag from reported back to unreported. -/
theorem C9_counterexample :
    ScanEVL4Log.flagOf 100 [⟨100, "1131010030", true⟩] = some true ∧
    ScanEVL4Log.flagOf 100
      (runLog [⟨100, "1131010030", true⟩] [LogOp.scan [(100, "3131010030")]]) =
      some false := by
  constructor
  · rfl
  · rfl

/-- C9 (amended): a correlation pass (`flagAsReportedCID`, `scanSyslog`,
`checkSyslog`) never resets a reported flag: it moves each entry's flag
monotonically (so the flag transitions at most once per correlation pass,
from unreported to reported); and across every interleaving of log-scan
passes and correlation passes in which no scan pass reuses the entry's
timestamp key, a flag once reported stays reported until the entry itself
is evicted by pruning. -/
theorem C9_amended_flag_one_way :
    (∀ (op : LogOp) (st : List ScanEVL4Log.LogEntry) (k : Nat),
      op.isCorrelation = true → ScanEVL4Log.flagOf k st = some true →
      ScanEVL4Log.flagOf k (stepLog st op) = some true) ∧
    (∀ (op : LogOp) (st : List ScanEVL4Log.LogEntry) (k : Nat) (b : Bool),
      op.isCorrelation = true → ScanEVL4Log.flagOf k st = some b →
      ∃ b', ScanEVL4Log.flagOf k (stepLog st op) = some b' ∧ (b = true → b' = true)) ∧
    (∀ (ops : List LogOp) (st : List ScanEVL4Log.LogEntry) (k : Nat),
      (st.map ScanEVL4Log.LogEntry.ts).Nodup →
      (∀ op ∈ ops, ∀ recs, op = LogOp.scan recs → ∀ r ∈ recs, r.1 ≠ k) →
      ScanEVL4Log.flagOf k st = some true →
      ScanEVL4Log.flagOf k (runLog st ops) = some true ∨
        ScanEVL4Log.flagOf k (runLog st ops) = none) := by
  have hstep : ∀ (op : LogOp) (st : List ScanEVL4Log.LogEntry) (k : Nat),
      op.isCorrelation = true → ScanEVL4Log.flagOf k st = some true →
      ScanEVL4Log.flagOf k (stepLog st op) = some true := by
    intro op st k hcorr h
    cases op with
    | scan recs => cases hcorr
    | flagRep k' => exact flagOf_flag_true k k' st h
    | scanSys nowts r a tpi => exact flagOf_scanSyslog_true nowts r a k tpi st h
    | checkSys nowts r a rep tpi =>
      exact flagOf_checkSyslog_true nowts r a k rep tpi st h
  have hstepnone : ∀ (op : LogOp) (st : List ScanEVL4Log.LogEntry) (k : Nat),
      op.isCorrelation = true → ScanEVL4Log.flagOf k st = none →
      ScanEVL4Log.flagOf k (stepLog st op) = none := by
    intro op st k hcorr h
    cases op with
    | scan recs => cases hcorr
    | flagRep k' => exact flagOf_flag_none k k' st h
    | scanSys nowts r a tpi => exact flagOf_scanSyslog_none nowts r a k tpi st h
    | checkSys nowts r a rep tpi =>
      exact flagOf_checkSyslog_none nowts r a k rep tpi st h
  have hexists : ∀ (op : LogOp) (st : List ScanEVL4Log.LogEntry) (k : Nat),
      op.isCorrelation = true → (ScanEVL4Log.flagOf k st).isSome = true →
      (ScanEVL4Log.flagOf k (stepLog st op)).isSome = true := by
    have hflag : ∀ (k k' : Nat) (st : List ScanEVL4Log.LogEntry),
        (ScanEVL4Log.flagOf k (ScanEVL4Log.flagAsReportedCID k' st)).isSome =
          (ScanEVL4Log.flagOf k st).isSome := by
      intro k k' st
      rw [flagOf_flagAsReported]
      unfold ScanEVL4Log.flagOf
      cases st.find? (fun e => e.ts = k) <;> rfl
    have hfold : ∀ (k : Nat) (ms : List (Nat × String)) (st : List ScanEVL4Log.LogEntry),
        (ScanEVL4Log.flagOf k
          (ms.foldl (fun s r => ScanEVL4Log.flagAsReportedCID r.1 s) st)).isSome =
          (ScanEVL4Log.flagOf k st).isSome := by
      intro k ms
      induction ms with
      | nil => intro st; rfl
      | cons m rest ih => intro st; rw [List.foldl_cons, ih, hflag]
    intro op st k hcorr h
    cases op with
    | scan recs => cases hcorr
    | flagRep k' => rw [stepLog, hflag]; exact h
    | scanSys nowts r a tpi =>
      show (ScanEVL4Log.flagOf k (DPM.scanSyslog nowts r a tpi st).1).isSome = true
      unfold DPM.scanSyslog
      split
      · unfold DPM.scanSyslogFlagged
        rw [hfold]
        exact h
      · show (ScanEVL4Log.flagOf k (ScanEVL4Log.flagAsReportedCID _
          (DPM.scanSyslogFlagged nowts r a tpi st))).isSome = true
        rw [hflag]
        unfold DPM.scanSyslogFlagged
        rw [hfold]
        exact h
    | checkSys nowts r a rep tpi =>
      show (ScanEVL4Log.flagOf k (DPM.checkSyslog nowts r a rep tpi st).1).isSome = true
      unfold DPM.checkSyslog
      repeat' split
      all_goals first
        | exact h
        | (rw [hflag]; exact h)
  refine ⟨hstep, ?_, ?_⟩
  · intro op st k b hcorr h
    cases b with
    | true => exact ⟨true, hstep op st k hcorr h, fun _ => rfl⟩
    | false =>
      have hs : (ScanEVL4Log.flagOf k (stepLog st op)).isSome = true :=
        hexists op st k hcorr (by rw [h]; rfl)
      rcases Option.isSome_iff_exists.mp hs with ⟨b', hb'⟩
      exact ⟨b', hb', fun hc => by cases hc⟩
  · intro ops st k hnd hfresh h
    have hrun : ∀ (ops2 : List LogOp) (st2 : List ScanEVL4Log.LogEntry),
        (st2.map ScanEVL4Log.LogEntry.ts).Nodup →
        (∀ op ∈ ops2, ∀ recs, op = LogOp.scan recs → ∀ r ∈ recs, r.1 ≠ k) →
        (ScanEVL4Log.flagOf k st2 = some true ∨ ScanEVL4Log.flagOf k st2 = none) →
        (ScanEVL4Log.flagOf k (runLog st2 ops2) = some true ∨
          ScanEVL4Log.flagOf k (runLog st2 ops2) = none) := by
      intro ops2
      induction ops2 with
      | nil => intro st2 _ _ hd; exact hd
      | cons op rest ih =>
        intro st2 hnd2 hfresh2 hd
        have hndstep := nodup_stepLog st2 op hnd2
        have hfresh' : ∀ o ∈ rest, ∀ recs, o = LogOp.scan recs → ∀ r ∈ recs, r.1 ≠ k :=
          fun o ho => hfresh2 o (List.mem_cons_of_mem _ ho)
        refine ih _ hndstep hfresh' ?_
        cases hop : op.isCorrelation with
        | true =>
          rcases hd with hd | hd
          · exact Or.inl (hstep op st2 k hop hd)
          · exact Or.inr (hstepnone op st2 k hop hd)
        | false =>
          cases op with
          | flagRep k' => cases hop
          | scanSys nowts r a tpi => cases hop
          | checkSys nowts r a rep tpi => cases hop
          | scan recs =>
            have hkfresh : ∀ r ∈ recs, r.1 ≠ k :=
              hfresh2 (LogOp.scan recs) (List.mem_cons_self _ _) recs rfl
            have hndins := nodup_foldl_insertCID recs st2 hnd2
            rcases hd with hd | hd
            · have hins : ScanEVL4Log.flagOf k
                  (recs.foldl (fun s r => ScanEVL4Log.insertCID r.1 r.2 s) st2) =
                  some true := by
                rw [flagOf_foldl_insert_fresh k recs st2 hkfresh]
                exact hd
              exact flagOf_filter _ k true _ hndins hins
            · have hins : ScanEVL4Log.flagOf k
                  (recs.foldl (fun s r => ScanEVL4Log.insertCID r.1 r.2 s) st2) =
                  none := by
                rw [flagOf_foldl_insert_fresh k recs st2 hkfresh]
                exact hd
              exact Or.inr (flagOf_filter_none _ k _ hins)
    exact hrun ops st hnd hfresh (Or.inl h)

/-- Witness for `C1_scanSyslog_single_alert`: a matched candidate (key 100)
is flagged with no log alert sourced from it, and the oldest unmatched
candidate (key 90) is the returned log alert. -/
theorem C1_scanSyslog_single_alert_witness :
    ScanEVL4Log.flagOf 100
      (DPM.scanSyslog 100 120 90 [(100000000000, "CID=1131010030")]
        [⟨100, "1131010030", false⟩, ⟨90, "1604010010", false⟩]).1 = some true ∧
    (∀ w, (DPM.scanSyslog 100 120 90 [(100000000000, "CID=1131010030")]
        [⟨100, "1131010030", false⟩, ⟨90, "1604010010", false⟩]).2 = some w →
      w.1 ≠ 100) ∧
    (∃ w, (DPM.scanSyslog 100 120 90 [(100000000000, "CID=1131010030")]
        [⟨100, "1131010030", false⟩, ⟨90, "1604010010", false⟩]).2 = some w ∧
      w ∈ DPM.unmatchedCandidates 100 120 90 [(100000000000, "CID=1131010030")]
        [⟨100, "1131010030", false⟩, ⟨90, "1604010010", false⟩] ∧
      ScanEVL4Log.flagOf w.1
        (DPM.scanSyslog 100 120 90 [(100000000000, "CID=1131010030")]
          [⟨100, "1131010030", false⟩, ⟨90, "1604010010", false⟩]).1 = some true) := by
  have h := C1_scanSyslog_single_alert 100 120 90 [(100000000000, "CID=1131010030")]
    [⟨100, "1131010030", false⟩, ⟨90, "1604010010", false⟩] (by decide)
  have hA := h.1 ⟨100, "1131010030", false⟩ (by decide) rfl (by decide)
    (100000000000, "CID=1131010030") (by decide) (by decide) (by decide) (by decide)
  have hB := h.2 (by decide)
  refine ⟨hA.1, hA.2, ?_⟩
  rcases hB with ⟨w, hw1, hw2, _, hw4, _⟩
  exact ⟨w, hw1, hw2, hw4⟩

/-- Witness for `C9_amended_flag_one_way` at concrete inputs: a correlation
pass keeps a reported flag reported and moves flags monotonically, and a
scan-then-flag interleaving avoiding the entry's key keeps it reported. -/
theorem C9_amended_flag_one_way_witness :
    ScanEVL4Log.flagOf 5
      (stepLog [⟨5, "1131010030", true⟩] (LogOp.flagRep 5)) = some true ∧
    (∃ b', ScanEVL4Log.flagOf 5
      (stepLog [⟨5, "1131010030", false⟩] (LogOp.checkSys 5 120 90 false []))
        = some b' ∧ (false = true → b' = true)) ∧
    (ScanEVL4Log.flagOf 7
      (runLog [⟨7, "1131010030", true⟩]
        [LogOp.scan [(8, "3131010030")], LogOp.flagRep 8]) = some true ∨
     ScanEVL4Log.flagOf 7
      (runLog [⟨7, "1131010030", true⟩]
        [LogOp.scan [(8, "3131010030")], LogOp.flagRep 8]) = none) := by
  have h := C9_amended_flag_one_way
  refine ⟨h.1 (LogOp.flagRep 5) [⟨5, "1131010030", true⟩] 5 rfl (by decide),
    h.2.1 (LogOp.checkSys 5 120 90 false []) [⟨5, "1131010030", false⟩] 5 false rfl
      (by decide), ?_⟩
  refine h.2.2 [LogOp.scan [(8, "3131010030")], LogOp.flagRep 8]
    [⟨7, "1131010030", true⟩] 7 (by decide) ?_ (by decide)
  intro op hop recs heq r hr
  rcases List.mem_cons.mp hop with rfl | hop'
  · cases heq
    have : r = (8, "3131010030") := by simpa using hr
    rw [this]
    decide
  · rcases List.mem_cons.mp hop' with rfl | hop''
    · cases heq
    · cases hop''

/-- C2: the budget gate's authorization decision (DPM.py lines 513-536,
reached whenever at least one phone is configured so the hard stop of line
509 does not fire): risk below 100 with the inclusive usage bound
authorizes Red, Yellow and Reboot; risk at least 100 under the same bound
authorizes Red only (so risk exactly 100 authorizes Red only); otherwise
nothing is authorized; and usage exactly at the allowance still
authorizes. -/
theorem C2_optimizeSMS_gate (daysToGo redphcnt yelphcnt bootphcnt inbdphcnt : Nat)
    (SMS_allowance sentSMS : ℤ)
    (hph : 0 < redphcnt + yelphcnt + bootphcnt + inbdphcnt) :
    (DPM.riskPercent daysToGo redphcnt yelphcnt bootphcnt inbdphcnt
        SMS_allowance sentSMS < 100 ∧
      (sentSMS : ℚ) + DPM.avgPhoneCount redphcnt yelphcnt bootphcnt inbdphcnt ≤
        (SMS_allowance : ℚ) →
      DPM.optimizeSMSGate daysToGo redphcnt yelphcnt bootphcnt inbdphcnt
        SMS_allowance sentSMS = (true, true, true)) ∧
    (DPM.riskPercent daysToGo redphcnt yelphcnt bootphcnt inbdphcnt
        SMS_allowance sentSMS ≥ 100 ∧
      (sentSMS : ℚ) + DPM.avgPhoneCount redphcnt yelphcnt bootphcnt inbdphcnt ≤
        (SMS_allowance : ℚ) →
      DPM.optimizeSMSGate daysToGo redphcnt yelphcnt bootphcnt inbdphcnt
        SMS_allowance sentSMS = (true, false, false)) ∧
    (¬((sentSMS : ℚ) + DPM.avgPhoneCount redphcnt yelphcnt bootphcnt inbdphcnt ≤
        (SMS_allowance : ℚ)) →
      DPM.optimizeSMSGate daysToGo redphcnt yelphcnt bootphcnt inbdphcnt
        SMS_allowance sentSMS = (false, false, false)) ∧
    (DPM.riskPercent daysToGo redphcnt yelphcnt bootphcnt inbdphcnt
        SMS_allowance sentSMS = 100 ∧
      (sentSMS : ℚ) + DPM.avgPhoneCount redphcnt yelphcnt bootphcnt inbdphcnt ≤
        (SMS_allowance : ℚ) →
      DPM.optimizeSMSGate daysToGo redphcnt yelphcnt bootphcnt inbdphcnt
        SMS_allowance sentSMS = (true, false, false)) ∧
    ((sentSMS : ℚ) + DPM.avgPhoneCount redphcnt yelphcnt bootphcnt inbdphcnt =
        (SMS_allowance : ℚ) →
      (DPM.optimizeSMSGate daysToGo redphcnt yelphcnt bootphcnt inbdphcnt
        SMS_allowance sentSMS).1 = true) := by
  have hsum : (0 : ℚ) < (redphcnt : ℚ) + (yelphcnt : ℚ) + (bootphcnt : ℚ) + (inbdphcnt : ℚ) := by
    have : (0 : ℚ) < ((redphcnt + yelphcnt + bootphcnt + inbdphcnt : ℕ) : ℚ) := by
      exact_mod_cast hph
    push_cast at this
    linarith
  have havgpos : 0 < DPM.avgPhoneCount redphcnt yelphcnt bootphcnt inbdphcnt := by
    unfold DPM.avgPhoneCount
    exact div_pos hsum (by norm_num)
  have havgne : DPM.avgPhoneCount redphcnt yelphcnt bootphcnt inbdphcnt ≠ 0 :=
    ne_of_gt havgpos
  have hgate : DPM.optimizeSMSGate daysToGo redphcnt yelphcnt bootphcnt inbdphcnt
      SMS_allowance sentSMS =
      (if DPM.riskPercent daysToGo redphcnt yelphcnt bootphcnt inbdphcnt
          SMS_allowance sentSMS < 100 ∧
        (sentSMS : ℚ) + DPM.avgPhoneCount redphcnt yelphcnt bootphcnt inbdphcnt ≤
          (SMS_allowance : ℚ) then (true, true, true)
      else if DPM.riskPercent daysToGo redphcnt yelphcnt bootphcnt inbdphcnt
          SMS_allowance sentSMS ≥ 100 ∧
        (sentSMS : ℚ) + DPM.avgPhoneCount redphcnt yelphcnt bootphcnt inbdphcnt ≤
          (SMS_allowance : ℚ) then (true, false, false)
      else (false, false, false)) := by
    simp only [DPM.optimizeSMSGate]
    rw [if_neg havgne]
  refine ⟨?_, ?_, ?_, ?_, ?_⟩
  · intro hc
    rw [hgate, if_pos hc]
  · intro hc
    have hnot1 : ¬(DPM.riskPercent daysToGo redphcnt yelphcnt bootphcnt inbdphcnt
        SMS_allowance sentSMS < 100 ∧
      (sentSMS : ℚ) + DPM.avgPhoneCount redphcnt yelphcnt bootphcnt inbdphcnt ≤
        (SMS_allowance : ℚ)) := by
      rintro ⟨h1, _⟩
      omega
    rw [hgate, if_neg hnot1, if_pos hc]
  · intro hnb
    rw [hgate, if_neg (fun hc => hnb hc.2), if_neg (fun hc => hnb hc.2)]
  · rintro ⟨heq, hb⟩
    have hnot1 : ¬(DPM.riskPercent daysToGo redphcnt yelphcnt bootphcnt inbdphcnt
        SMS_allowance sentSMS < 100 ∧
      (sentSMS : ℚ) + DPM.avgPhoneCount redphcnt yelphcnt bootphcnt inbdphcnt ≤
        (SMS_allowance : ℚ)) := by
      rintro ⟨h1, _⟩
      omega
    rw [hgate, if_neg hnot1, if_pos ⟨by omega, hb⟩]
  · intro heq
    have hb : (sentSMS : ℚ) + DPM.avgPhoneCount redphcnt yelphcnt bootphcnt inbdphcnt ≤
        (SMS_allowance : ℚ) := le_of_eq heq
    by_cases hr : DPM.riskPercent daysToGo redphcnt yelphcnt bootphcnt inbdphcnt
        SMS_allowance sentSMS < 100
    · rw [hgate, if_pos ⟨hr, hb⟩]
    · rw [hgate, if_neg (fun hc => hr hc.1), if_pos ⟨by omega, hb⟩]

/-- Witness for `C2_optimizeSMS_gate`: with one phone per roster,
`daysToGo = 10`, allowance 10 and nothing sent, the risk is exactly 100 and
only Red is authorized; with allowance 100 all three are authorized; with
everything spent but one, usage hits the inclusive bound and Red is still
authorized. -/
theorem C2_optimizeSMS_gate_witness :
    DPM.riskPercent 10 1 1 1 1 10 0 = 100 ∧
    DPM.optimizeSMSGate 10 1 1 1 1 10 0 = (true, false, false) ∧
    DPM.optimizeSMSGate 1 1 1 1 1 100 0 = (true, true, true) ∧
    (DPM.optimizeSMSGate 1 1 1 1 1 10 9).1 = true := by
  have h100 : DPM.riskPercent 10 1 1 1 1 10 0 = 100 := by
    norm_num [DPM.riskPercent, DPM.avgPhoneCount, pyRound]
  have h := C2_optimizeSMS_gate 10 1 1 1 1 10 0 (by norm_num)
  have h2 := C2_optimizeSMS_gate 1 1 1 1 1 100 0 (by norm_num)
  have h3 := C2_optimizeSMS_gate 1 1 1 1 1 10 9 (by norm_num)
  refine ⟨h100, ?_, ?_, ?_⟩
  · exact h.2.2.2.1 ⟨h100, by norm_num [DPM.avgPhoneCount]⟩
  · refine h2.1 ⟨?_, by norm_num [DPM.avgPhoneCount]⟩
    norm_num [DPM.riskPercent, DPM.avgPhoneCount, pyRound]
  · refine h3.2.2.2.2 ?_
    norm_num [DPM.avgPhoneCount]

/-- C6 (counterexample): with four phones for Red Alerts but none for the
other three categories, low risk and an unexhausted allowance, the gate
still authorizes all three categories: a single empty roster category is
not the hard stop the claim describes. -/
theorem C6_counterexample :
    DPM.optimizeSMSGate 1 4 0 0 0 100 0 = (true, true, true) ∧
    ¬(DPM.optimizeSMSGate 1 4 0 0 0 100 0 = (false, false, false)) := by
  have h : DPM.optimizeSMSGate 1 4 0 0 0 100 0 = (true, true, true) := by
    norm_num [DPM.optimizeSMSGate, DPM.riskPercent, DPM.avgPhoneCount, pyRound]
  exact ⟨h, by rw [h]; simp⟩

/-- C6 (amended): the hard stop of `optimizeSMS` (DPM.py lines 509-511)
fires exactly when the AVERAGE roster size is zero, i.e. when all four
phone-roster categories are empty; then no category is authorized. -/
theorem C6_amended_zero_phones (daysToGo redphcnt yelphcnt bootphcnt inbdphcnt : Nat)
    (SMS_allowance sentSMS : ℤ)
    (hph : redphcnt + yelphcnt + bootphcnt + inbdphcnt = 0) :
    DPM.optimizeSMSGate daysToGo redphcnt yelphcnt bootphcnt inbdphcnt
      SMS_allowance sentSMS = (false, false, false) := by
  have h0 : redphcnt = 0 ∧ yelphcnt = 0 ∧ bootphcnt = 0 ∧ inbdphcnt = 0 := by omega
  rcases h0 with ⟨rfl, rfl, rfl, rfl⟩
  simp only [DPM.optimizeSMSGate]
  rw [if_pos]
  unfold DPM.avgPhoneCount
  norm_num

/-- Witness for `C6_amended_zero_phones`. -/
theorem C6_amended_zero_phones_witness :
    DPM.optimizeSMSGate 5 0 0 0 0 100 0 = (false, false, false) :=
  C6_amended_zero_phones 5 0 0 0 0 100 0 rfl

theorem nodup_updChan (name : String) (ts : Nat) (v : String) (st : TelnetEVL4.RecentMsgs)
    (h : ∀ c ∈ st, (c.2.map Prod.fst).Nodup) :
    ∀ c ∈ TelnetEVL4.updChan name ts v st, (c.2.map Prod.fst).Nodup := by
  intro c hc
  unfold TelnetEVL4.updChan at hc
  rcases List.mem_map.mp hc with ⟨e, he, rfl⟩
  split
  · exact nodup_dictInsert ts v e.2 (h e he)
  · exact h e he

theorem pruneAll_length (st : TelnetEVL4.RecentMsgs)
    (h : ∀ c ∈ st, (c.2.map Prod.fst).Nodup) :
    ∀ c ∈ TelnetEVL4.pruneAll st, c.2.length ≤ TelnetEVL4.MAX_HISTORY := by
  intro c hc
  unfold TelnetEVL4.pruneAll at hc
  rcases List.mem_map.mp hc with ⟨e, he, rfl⟩
  exact pruneByKey_length_le _ _ _ (h e he)

/-- C7: every rolling history stays within its configured capacity.  After
any `getNextMessage` step each protocol channel dictionary holds at most
`MAX_HISTORY = 2` entries, after any `getLogRecsWithCID` step the log
scanner's window holds at most 2 entries, and after `doPruning` the SMS
history holds at most 16 entries — whatever the prior state and inputs,
provided each dictionary's keys are distinct (a Python dict invariant). -/
theorem C7_history_capacity :
    (∀ (now : Nat) (msg : String) (st : TelnetEVL4.RecentMsgs),
      (∀ c ∈ st, (c.2.map Prod.fst).Nodup) →
      ∀ c ∈ TelnetEVL4.getNextMessage now msg st, c.2.length ≤ 2) ∧
    (∀ (recs : List (Nat × String)) (st : List ScanEVL4Log.LogEntry),
      (st.map ScanEVL4Log.LogEntry.ts).Nodup →
      (ScanEVL4Log.getLogRecsWithCID recs st).length ≤ 2) ∧
    (∀ hist : List MyModem.SMSRec,
      (hist.map MyModem.SMSRec.ts).Nodup → (MyModem.doPruning hist).length ≤ 16) := by
  refine ⟨?_, ?_, ?_⟩
  · intro now msg st hnd
    unfold TelnetEVL4.getNextMessage
    apply pruneAll_length
    unfold TelnetEVL4.getNextMessageStore
    intro c hc
    repeat' split at hc
    all_goals first
      | exact hnd c hc
      | exact nodup_updChan _ _ _ _ hnd c hc
      | exact nodup_updChan _ _ _ _ (nodup_updChan _ _ _ _ hnd) c hc
      | exact nodup_updChan _ _ _ _
          (nodup_updChan _ _ _ _ (nodup_updChan _ _ _ _ hnd)) c hc
  · intro recs st hnd
    unfold ScanEVL4Log.getLogRecsWithCID ScanEVL4Log.doPruning
    exact pruneByKey_length_le _ _ _ (nodup_foldl_insertCID recs st hnd)
  · intro hist hnd
    unfold MyModem.doPruning
    exact pruneByKey_length_le _ _ _ hnd

/-- Witness for `C7_history_capacity` on concrete over-full histories. -/
theorem C7_history_capacity_witness :
    (∀ c ∈ TelnetEVL4.getNextMessage 9 "%03,1373010010$"
      (TelnetEVL4.updChan "msg03raw" 1 "%03,1441010010$"
        (TelnetEVL4.updChan "msg03raw" 2 "%03,3441010010$"
          TelnetEVL4.initRecentMsgs)), c.2.length ≤ 2) ∧
    (ScanEVL4Log.getLogRecsWithCID [(3, "1131010030"), (4, "3131010030")]
      [⟨1, "1604010010", true⟩, ⟨2, "1441010010", false⟩]).length ≤ 2 ∧
    (MyModem.doPruning ((List.range 20).map
      (fun i => ⟨i, "A", "5551234567"⟩))).length ≤ 16 := by
  have h := C7_history_capacity
  refine ⟨h.1 9 "%03,1373010010$" _ (by decide), h.2.1 _ _ (by decide), h.2.2 _ (by decide)⟩

/-- C4: after a successful `sendSMS` (return code 0), a second call with the
same text and recipient inside the duplicate-suppression window transmits
nothing: the first call made the only transmission attempt, the second
returns the distinct duplicate signal 8 (not 0/4/16), makes no transmission
attempt, and still appends a history entry under its own fresh timestamp. -/
theorem C4_sendSMS_duplicate_suppressed (doSend : Bool) (RECENT_SECS t1 t2 : Nat)
    (message recipient : String) (ok1 ok2 : Bool) (h : List MyModem.SMSRec)
    (hfirst : (MyModem.sendSMS doSend RECENT_SECS t1 message recipient ok1 h).rc = 0)
    (hwin : ((Nat.dist t2 t1 : ℚ) / 1000000000 ≤ (RECENT_SECS : ℚ))) :
    (MyModem.sendSMS doSend RECENT_SECS t1 message recipient ok1 h).attempts = 1 ∧
    (MyModem.sendSMS doSend RECENT_SECS t2 message recipient ok2
      (MyModem.sendSMS doSend RECENT_SECS t1 message recipient ok1 h).history).rc = 8 ∧
    (MyModem.sendSMS doSend RECENT_SECS t2 message recipient ok2
      (MyModem.sendSMS doSend RECENT_SECS t1 message recipient ok1 h).history).attempts
      = 0 ∧
    (MyModem.sendSMS doSend RECENT_SECS t2 message recipient ok2
      (MyModem.sendSMS doSend RECENT_SECS t1 message recipient ok1 h).history).history =
      (MyModem.sendSMS doSend RECENT_SECS t1 message recipient ok1 h).history ++
        [⟨t2, message, recipient⟩] ∧
    ((8 : Nat) ≠ 0 ∧ (8 : Nat) ≠ 4 ∧ (8 : Nat) ≠ 16) := by
  by_cases hdup : MyModem.isDuplicate RECENT_SECS t1 message recipient h = true
  · exfalso
    simp [MyModem.sendSMS, hdup] at hfirst
  cases hds : doSend with
  | false => exfalso; simp [MyModem.sendSMS, hdup, hds] at hfirst
  | true =>
  cases hok : ok1 with
  | false => exfalso; simp [MyModem.sendSMS, hdup, hds, hok] at hfirst
  | true =>
  have hfst : MyModem.sendSMS true RECENT_SECS t1 message recipient true h =
      ⟨0, MyModem.saveHistory t1 message recipient h, 1⟩ := by
    simp [MyModem.sendSMS, hdup]
  rw [hfst]
  have hdup2 : MyModem.isDuplicate RECENT_SECS t2 message recipient
      (MyModem.saveHistory t1 message recipient h) = true := by
    unfold MyModem.isDuplicate MyModem.saveHistory
    rw [List.any_eq_true]
    refine ⟨⟨t1, message, recipient⟩, by simp, ?_⟩
    simp only [Bool.and_eq_true, beq_self_eq_true, decide_eq_true_eq]
    exact ⟨by simp, hwin⟩
  simp only [MyModem.saveHistory] at hdup2
  refine ⟨by simp, ?_, ?_, ?_, by norm_num⟩
  · simp [MyModem.sendSMS, MyModem.saveHistory, hdup2]
  · simp [MyModem.sendSMS, MyModem.saveHistory, hdup2]
  · simp [MyModem.sendSMS, MyModem.saveHistory, hdup2]

/-- Witness for `C4_sendSMS_duplicate_suppressed`: a send at `t1 = 5s`
followed by the same message one second later is suppressed. -/
theorem C4_sendSMS_duplicate_suppressed_witness :
    (MyModem.sendSMS true 60 5000000000 "FIRE" "5551234567" true []).attempts = 1 ∧
    (MyModem.sendSMS true 60 6000000000 "FIRE" "5551234567" true
      (MyModem.sendSMS true 60 5000000000 "FIRE" "5551234567" true []).history).rc = 8 ∧
    (MyModem.sendSMS true 60 6000000000 "FIRE" "5551234567" true
      (MyModem.sendSMS true 60 5000000000 "FIRE" "5551234567" true
        []).history).attempts = 0 := by
  have h := C4_sendSMS_duplicate_suppressed true 60 5000000000 6000000000
    "FIRE" "5551234567" true true [] rfl
    (by norm_num [Nat.dist])
  exact ⟨h.1, h.2.1, h.2.2.1⟩

/-- C5 (counterexample): on a transport failure `sendSMS` itself makes
exactly one transmission attempt and returns the hard-failure code 16
immediately — it does not retry before signaling its caller. -/
theorem C5_counterexample :
    (MyModem.sendSMS true 60 5000000000 "ALERT" "5551234567" false []).rc = 16 ∧
    (MyModem.sendSMS true 60 5000000000 "ALERT" "5551234567" false []).attempts = 1 ∧
    ¬((MyModem.sendSMS true 60 5000000000 "ALERT" "5551234567" false []).attempts = 2) :=
  ⟨rfl, rfl, by decide⟩

/-- C5 (amended): the retry lives in the caller: `sendSMS` signals the hard
failure 16 after a single transmission attempt, and `callCellPhones`
(DPM.py lines 399-405), on seeing 16, calls `sendSMS` exactly once more —
so a persistently failing transport yields exactly two transmission
attempts per phone and a final hard-failure result. -/
theorem C5_amended_caller_retry (RECENT_SECS t1 t2 : Nat) (message recipient : String)
    (ok2 : Bool) (h : List MyModem.SMSRec)
    (hh : ∀ r ∈ h, ¬(r.alert = message ∧ r.phone = recipient)) :
    (MyModem.sendSMS true RECENT_SECS t1 message recipient false h).rc = 16 ∧
    (MyModem.sendSMS true RECENT_SECS t1 message recipient false h).attempts = 1 ∧
    (DPM.sendToPhone true RECENT_SECS t1 t2 message recipient false ok2 h).attempts = 2 ∧
    (DPM.sendToPhone true RECENT_SECS t1 t2 message recipient false false h).rc = 16 := by
  have hdup : ∀ t : Nat, MyModem.isDuplicate RECENT_SECS t message recipient h = false := by
    intro t
    unfold MyModem.isDuplicate
    rw [List.any_eq_false]
    intro r hr
    have hne := hh r hr
    by_cases ha : r.alert = message
    · have hb : r.phone ≠ recipient := fun hb => hne ⟨ha, hb⟩
      simp [ha, hb]
    · simp [ha]
  have h1 : MyModem.sendSMS true RECENT_SECS t1 message recipient false h =
      ⟨16, h, 1⟩ := by
    simp [MyModem.sendSMS, hdup t1]
  have h2 : ∀ ok : Bool, (MyModem.sendSMS true RECENT_SECS t2 message recipient ok h).attempts
      = 1 := by
    intro ok
    cases ok <;> simp [MyModem.sendSMS, hdup t2]
  refine ⟨by rw [h1], by rw [h1], ?_, ?_⟩
  · unfold DPM.sendToPhone
    rw [h1]
    simp [h2 ok2]
  · unfold DPM.sendToPhone
    rw [h1]
    have h3 : MyModem.sendSMS true RECENT_SECS t2 message recipient false h =
        ⟨16, h, 1⟩ := by
      simp [MyModem.sendSMS, hdup t2]
    simp [h3]

/-- Witness for `C5_amended_caller_retry` on an empty history. -/
theorem C5_amended_caller_retry_witness :
    (MyModem.sendSMS true 60 5000000000 "ALERT" "5551234567" false []).rc = 16 ∧
    (DPM.sendToPhone true 60 5000000000 6000000000 "ALERT" "5551234567"
      false false []).attempts = 2 ∧
    (DPM.sendToPhone true 60 5000000000 6000000000 "ALERT" "5551234567"
      false false []).rc = 16 := by
  have h := C5_amended_caller_retry 60 5000000000 6000000000 "ALERT" "5551234567"
    false [] (by intro r hr; cases hr)
  exact ⟨h.1, h.2.2.1, h.2.2.2⟩

/-- C8: `doType01` on the Python sources.  The single-group scenario decodes
`0800` at group 0 to zone `004` alone, as the claim states; but with zones
set in two different groups (zone 4 in group 0 and zone 20 in group 1) the
`strip(',')` executed INSIDE the per-group loop (telnetEVL4.py line 293)
swallows the comma between groups, producing `004020` instead of the
comma-joined `004,020` promised by the function's own docstring
("e.g. 004,008,016"). -/
theorem C8_doType01_eval :
    TelnetEVL4.doType01 "%01,08000000000000000000000000000000$" = some "004" ∧
    TelnetEVL4.doType01 "%01,88000000000000000000000000000000$" = some "004,008" ∧
    TelnetEVL4.doType01 "%01,08000800000000000000000000000000$" = some "004020" ∧
    TelnetEVL4.doType01 "%01,08000800000000000000000000000000$" ≠ some "004,020" := by
  refine ⟨rfl, rfl, rfl, by decide⟩

theorem noBang_append (a b : String) (ha : noBang a) (hb : noBang b) :
    noBang (a ++ b) := by
  unfold noBang at ha hb ⊢
  rw [String.data_append]
  intro hmem
  rcases List.mem_append.mp hmem with h | h
  · exact ha h
  · exact hb h

theorem noBang_removeBang (s : String) : noBang (removeBang s) := by
  unfold noBang removeBang
  intro hmem
  have := List.of_mem_filter hmem
  simp at this

theorem noBang_addPhrase (s p : String) (cond : Bool) (hs : noBang s) (hp : noBang p) :
    noBang (TelnetEVL4.addPhrase s cond p) := by
  unfold TelnetEVL4.addPhrase
  split
  · exact noBang_append s p hs hp
  · exact hs

theorem mem_of_mem_pyStripL (c : Char) (cs l : List Char) (h : c ∈ pyStripL cs l) :
    c ∈ l := by
  unfold pyStripL at h
  rw [List.mem_reverse] at h
  have h1 := (List.dropWhile_sublist _).mem h
  rw [List.mem_reverse] at h1
  exact (List.dropWhile_sublist _).mem h1

theorem noBang_pyStrip (chars s : String) (hs : noBang s) : noBang (pyStrip chars s) := by
  intro hmem
  exact hs (mem_of_mem_pyStripL _ _ _ hmem)

theorem noBang_type00Status (msg : String) (myint : Nat) :
    noBang (TelnetEVL4.type00Status msg myint) := by
  unfold TelnetEVL4.type00Status
  apply noBang_pyStrip
  repeat' first
    | apply noBang_addPhrase
    | split
    | apply noBang_append
    | decide

theorem noBang_doType00 (msg s : String) (h : TelnetEVL4.doType00 msg = some s) :
    noBang s := by
  unfold TelnetEVL4.doType00 at h
  repeat' split at h
  all_goals first
    | (cases h; exact noBang_type00Status _ _)
    | cases h

theorem noBang_slice_digits (a b : Nat) (s : String) (h : DecodeCID.digits10 s = true) :
    noBang (pySlice a b s) := by
  unfold DecodeCID.digits10 at h
  rw [Bool.and_eq_true] at h
  have hall := List.all_eq_true.mp h.2
  unfold noBang pySlice
  intro hmem
  have h1 : '!' ∈ s.data :=
    List.mem_of_mem_drop (List.mem_of_mem_take hmem)
  have := hall '!' h1
  simp at this

theorem noBang_getDescription (decodeLevel : String)
    (users zones : List (String × String)) (CID s : String)
    (hdig : DecodeCID.digits10 CID = true)
    (hok : DecodeCID.getDescriptionE decodeLevel users zones CID = .ok s) : noBang s := by
  unfold DecodeCID.getDescriptionE at hok
  repeat' split at hok
  all_goals first
    | (cases hok
       first
        | exact noBang_removeBang _
        | exact noBang_append _ _ (by decide) (noBang_slice_digits 1 4 CID hdig)
        | decide)
    | cases hok

theorem pySplitCh_of_not_mem (sep : Char) (l : List Char) (h : sep ∉ l) :
    pySplitCh sep l = [l] := by
  induction l with
  | nil => rfl
  | cons c cs ih =>
    have hc : ¬(c = sep) := fun hc => h (hc ▸ List.mem_cons_self _ _)
    have hcs : sep ∉ cs := fun hm => h (List.mem_cons_of_mem _ hm)
    unfold pySplitCh
    rw [if_neg hc, ih hcs]

theorem pySplitCh_append (sep : Char) (a b : List Char) (h : sep ∉ a) :
    pySplitCh sep (a ++ sep :: b) = a :: pySplitCh sep b := by
  induction a with
  | nil =>
    show pySplitCh sep (sep :: b) = [] :: pySplitCh sep b
    simp [pySplitCh]
  | cons c a' ih =>
    have hc : ¬(c = sep) := fun hc => h (hc ▸ List.mem_cons_self _ _)
    have ha' : sep ∉ a' := fun hm => h (List.mem_cons_of_mem _ hm)
    show pySplitCh sep (c :: (a' ++ sep :: b)) = (c :: a') :: pySplitCh sep b
    simp only [pySplitCh, hc, if_false, ih ha']

/-- C10: the decoded-CID text never contains an exclamation mark (the
decoder strips them; the event-code fallback is built from digits only),
and neither does the keypad-status text; hence in a composite alert
`keypad + ' ! ' + decoded` the inserted separator is the only exclamation
mark, splitting on `'!'` recovers exactly the keypad fragment and the
decoded-code fragment, and the classifier fragment selectors
(`checkRedAlert`/`checkYellowAlert` keypad side, `checkNonAlert` decoded
side) recover exactly those fragments. -/
theorem C10_separator_unique :
    (∀ (decodeLevel : String) (users zones : List (String × String)) (CID s : String),
      DecodeCID.digits10 CID = true →
      DecodeCID.getDescriptionE decodeLevel users zones CID = .ok s → noBang s) ∧
    (∀ msg s : String, TelnetEVL4.doType00 msg = some s → noBang s) ∧
    (∀ keypadTxt cidTxt : String, noBang keypadTxt → noBang cidTxt →
      (DPM.assembleAlert keypadTxt cidTxt).data.count '!' = 1 ∧
      pySplit '!' (DPM.assembleAlert keypadTxt cidTxt) =
        [keypadTxt ++ " ", " " ++ cidTxt] ∧
      DPM.redAlertFragment (DPM.assembleAlert keypadTxt cidTxt) = keypadTxt ++ " " ∧
      DPM.nonAlertFragment (DPM.assembleAlert keypadTxt cidTxt) = " " ++ cidTxt) := by
  refine ⟨noBang_getDescription, noBang_doType00, ?_⟩
  intro k c hk hc
  have hdata : (DPM.assembleAlert k c).data = (k.data ++ [' ']) ++ '!' :: (' ' :: c.data) := by
    unfold DPM.assembleAlert
    simp [String.data_append]
  have hnk : '!' ∉ k.data ++ [' '] := by
    intro hmem
    rcases List.mem_append.mp hmem with h | h
    · exact hk h
    · simp at h
  have hnc : '!' ∉ ' ' :: c.data := by
    intro hmem
    rcases List.mem_cons.mp hmem with h | h
    · cases h
    · exact hc h
  have hsplitl : pySplitCh '!' ((DPM.assembleAlert k c).data) =
      [k.data ++ [' '], ' ' :: c.data] := by
    rw [hdata, pySplitCh_append '!' _ _ hnk, pySplitCh_of_not_mem '!' _ hnc]
  have hs1 : (⟨k.data ++ [' ']⟩ : String) = k ++ " " := by
    cases k with
    | mk l => rfl
  have hs2 : (⟨' ' :: c.data⟩ : String) = " " ++ c := by
    cases c with
    | mk l => rfl
  have hsplit : pySplit '!' (DPM.assembleAlert k c) = [k ++ " ", " " ++ c] := by
    unfold pySplit
    rw [hsplitl]
    simp [hs1, hs2]
  have hcont : (DPM.assembleAlert k c).data.contains '!' = true := by
    rw [hdata]
    simp
  refine ⟨?_, hsplit, ?_, ?_⟩
  · rw [hdata]
    simp [List.count_append, List.count_cons,
      List.count_eq_zero.mpr hk, List.count_eq_zero.mpr hc]
  · unfold DPM.redAlertFragment
    rw [hsplit]
    rfl
  · unfold DPM.nonAlertFragment
    rw [hsplit, if_pos hcont]
    rfl

/-- Witness for `C10_separator_unique` on a concrete decoded alert. -/
theorem C10_separator_unique_witness :
    (∀ s, DecodeCID.getDescriptionE "NORMAL" DecodeCID.users DecodeCID.zones
      "1131010030" = .ok s → noBang s) ∧
    pySplit '!' (DPM.assembleAlert "ARMED STAY,AC PRESENT"
      "Partition:01, New event:131 Perimeter, Zone:zone-3") =
      ["ARMED STAY,AC PRESENT ",
        " Partition:01, New event:131 Perimeter, Zone:zone-3"] ∧
    DPM.nonAlertFragment (DPM.assembleAlert "ARMED STAY,AC PRESENT"
      "Partition:01, New event:131 Perimeter, Zone:zone-3") =
      " Partition:01, New event:131 Perimeter, Zone:zone-3" := by
  have h := C10_separator_unique
  refine ⟨fun s hs => h.1 "NORMAL" DecodeCID.users DecodeCID.zones "1131010030" s
    (by decide) hs, ?_, ?_⟩
  · exact (h.2.2 "ARMED STAY,AC PRESENT"
      "Partition:01, New event:131 Perimeter, Zone:zone-3" (by decide) (by decide)).2.1
  · exact (h.2.2 "ARMED STAY,AC PRESENT"
      "Partition:01, New event:131 Perimeter, Zone:zone-3" (by decide) (by decide)).2.2.2

theorem removeBang_append (a b : String) :
    removeBang (a ++ b) = removeBang a ++ removeBang b := by
  cases a with
  | mk la =>
    cases b with
    | mk lb =>
      show String.mk ((la ++ lb).filter _) = String.mk (la.filter _ ++ lb.filter _)
      rw [List.filter_append]

theorem lookupTab_mem {α : Type} (tab : List (String × α)) (k : String) (v : α)
    (h : lookupTab tab k = some v) : ∃ p, p ∈ tab ∧ p.1 = k ∧ p.2 = v := by
  unfold lookupTab at h
  cases hf : tab.find? (fun e => e.1 == k) with
  | none => rw [hf] at h; cases h
  | some p =>
    rw [hf] at h
    have hmem := List.mem_of_find?_eq_some hf
    have hk := List.find?_some hf
    simp only [beq_iff_eq] at hk
    simp only [Option.map_some'] at h
    exact ⟨p, hmem, hk, by injection h⟩

theorem CID_EventCodes_qualifiers_valid :
    ∀ p ∈ DecodeCID.CID_EventCodes,
      (DecodeCID.lookupQual p.2.2.2.2 '1').isSome = true ∧
      (DecodeCID.lookupQual p.2.2.2.2 '3').isSome = true ∧
      (DecodeCID.lookupQual p.2.2.2.2 '6').isSome = true := by
  set_option maxRecDepth 4000 in decide

theorem CID_EventCodes_categories_valid :
    ∀ p ∈ DecodeCID.CID_EventCodes,
      (lookupTab DecodeCID.CID_EventCategory p.2.1).isSome = true := by
  set_option maxRecDepth 4000 in decide


/-- Reduction of `getDescriptionE` once the qualifier character and the
event-table row are known: the decoder is the verbosity if-chain over that
row. -/
theorem getDescriptionE_found (decodeLevel : String)
    (users zones : List (String × String)) (CID : String) (q : Char)
    (row : String × String × String × String)
    (hq : CID.data.head? = some q)
    (hrow : lookupTab DecodeCID.CID_EventCodes (pySlice 1 4 CID) = some row) :
    DecodeCID.getDescriptionE decodeLevel users zones CID =
      (if decodeLevel = "VERBOSE" then
        match lookupTab DecodeCID.CID_EventCategory row.1,
            DecodeCID.lookupQual row.2.2.2 q with
        | some category, some qualText =>
          .ok (removeBang (DecodeCID.composeReply decodeLevel (pySlice 4 6 CID)
            (pySlice 1 4 CID) row.2.1
            (DecodeCID.agentText users zones row.2.2.1 (pySlice 6 9 CID))
            category qualText))
        | _, _ => .ok "Unable to decode CID"
      else if decodeLevel = "NORMAL" then
        match DecodeCID.lookupQual row.2.2.2 q with
        | some qualText =>
          .ok (removeBang (DecodeCID.composeReply decodeLevel (pySlice 4 6 CID)
            (pySlice 1 4 CID) row.2.1
            (DecodeCID.agentText users zones row.2.2.1 (pySlice 6 9 CID))
            "" qualText))
        | none => .ok "Unable to decode CID"
      else if decodeLevel = "TERSE" then
        .ok (removeBang (DecodeCID.composeReply decodeLevel (pySlice 4 6 CID)
          (pySlice 1 4 CID) row.2.1
          (DecodeCID.agentText users zones row.2.2.1 (pySlice 6 9 CID)) "" ""))
      else
        .ok "CID-003E Invalid input - unable to decode CID") := by
  unfold DecodeCID.getDescriptionE
  rw [hq, hrow]

/-- C3 (amended): `getDescription` never raises on a non-empty code and is
a function, hence deterministic; an event code absent from the static table
yields the fixed fallback string built from that event code; an absent
agent id yields a composed description ending in the unknown-agent fallback
whenever the level is terse, or the level is verbose/normal and the
qualifier digit is one of 1/3/6; at verbose/normal with an unrecognized
qualifier digit the fixed string `Unable to decode CID` is returned
instead — still without raising. -/
theorem C3_getDescription_total_fallbacks :
    (∀ (decodeLevel : String) (users zones : List (String × String)) (CID : String),
      CID ≠ "" →
      ∃ s, DecodeCID.getDescriptionE decodeLevel users zones CID = .ok s) ∧
    (∀ (decodeLevel : String) (users zones : List (String × String)) (CID : String),
      CID ≠ "" →
      lookupTab DecodeCID.CID_EventCodes (pySlice 1 4 CID) = none →
      DecodeCID.getDescriptionE decodeLevel users zones CID =
        .ok ("No description available for CID event code " ++ pySlice 1 4 CID)) ∧
    (∀ (decodeLevel : String) (users zones : List (String × String)) (CID : String)
      (q : Char) (row : String × String × String × String),
      CID.data.head? = some q →
      lookupTab DecodeCID.CID_EventCodes (pySlice 1 4 CID) = some row →
      (row.2.2.1 = "U" ∧ lookupTab users (pySlice 6 9 CID) = none) ∨
        (row.2.2.1 = "Z" ∧ lookupTab zones (pySlice 6 9 CID) = none) →
      (decodeLevel = "TERSE" ∨
        ((decodeLevel = "VERBOSE" ∨ decodeLevel = "NORMAL") ∧
          (q = '1' ∨ q = '3' ∨ q = '6'))) →
      ∃ p, DecodeCID.getDescriptionE decodeLevel users zones CID =
        .ok (p ++ "Unknown user/zone/agent")) ∧
    (∀ (decodeLevel : String) (users zones : List (String × String)) (CID : String)
      (q : Char) (row : String × String × String × String),
      CID.data.head? = some q →
      lookupTab DecodeCID.CID_EventCodes (pySlice 1 4 CID) = some row →
      (decodeLevel = "VERBOSE" ∨ decodeLevel = "NORMAL") →
      DecodeCID.lookupQual row.2.2.2 q = none →
      DecodeCID.getDescriptionE decodeLevel users zones CID =
        .ok "Unable to decode CID") := by
  refine ⟨?_, ?_, ?_, ?_⟩
  · intro decodeLevel users zones CID h
    have hd : CID.data ≠ [] := by
      intro hdata
      apply h
      cases CID with
      | mk l => rw [show l = [] from hdata]
    rcases hdl : CID.data with _ | ⟨c, cs⟩
    · exact absurd hdl hd
    · have hq : CID.data.head? = some c := by rw [hdl, List.head?_cons]
      cases hrow : lookupTab DecodeCID.CID_EventCodes (pySlice 1 4 CID) with
      | none =>
        refine ⟨"No description available for CID event code " ++ pySlice 1 4 CID, ?_⟩
        unfold DecodeCID.getDescriptionE
        rw [hq, hrow]
      | some row =>
        rw [getDescriptionE_found decodeLevel users zones CID c row hq hrow]
        repeat' split
        all_goals exact ⟨_, rfl⟩
  · intro decodeLevel users zones CID h hlk
    have hd : CID.data ≠ [] := by
      intro hdata
      apply h
      cases CID with
      | mk l => rw [show l = [] from hdata]
    rcases hdl : CID.data with _ | ⟨c, cs⟩
    · exact absurd hdl hd
    · unfold DecodeCID.getDescriptionE
      rw [show CID.data.head? = some c from by rw [hdl, List.head?_cons], hlk]
  · intro decodeLevel users zones CID q row hq hrow hkd hlvl
    have hagent : DecodeCID.agentText users zones row.2.2.1 (pySlice 6 9 CID) =
        "Unknown user/zone/agent" := by
      rcases hkd with ⟨hU, hnone⟩ | ⟨hZ, hnone⟩
      · unfold DecodeCID.agentText
        rw [if_pos hU, hnone]
      · unfold DecodeCID.agentText
        rw [if_neg (by rw [hZ]; decide), if_pos hZ, hnone]
    rw [getDescriptionE_found decodeLevel users zones CID q row hq hrow]
    rcases hlvl with hT | ⟨hVN, hq136⟩
    · subst hT
      rw [if_neg (by decide), if_neg (by decide), if_pos rfl, hagent]
      unfold DecodeCID.composeReply
      rw [if_neg (by decide), if_neg (by decide)]
      exact ⟨removeBang ("Partition:" ++ pySlice 4 6 CID ++ ", " ++ row.2.1 ++ ", "),
        by rw [removeBang_append]; rfl⟩
    · rcases lookupTab_mem _ _ _ hrow with ⟨pr, hprmem, _, hprv⟩
      have hqv := CID_EventCodes_qualifiers_valid pr hprmem
      have hqsome : (DecodeCID.lookupQual row.2.2.2 q).isSome = true := by
        rw [← hprv]
        rcases hq136 with rfl | rfl | rfl
        · exact hqv.1
        · exact hqv.2.1
        · exact hqv.2.2
      rcases Option.isSome_iff_exists.mp hqsome with ⟨qt, hqt⟩
      rcases hVN with hV | hN
      · subst hV
        rw [if_pos rfl]
        have hcs : (lookupTab DecodeCID.CID_EventCategory row.1).isSome = true := by
          rw [← hprv]
          exact CID_EventCodes_categories_valid pr hprmem
        rcases Option.isSome_iff_exists.mp hcs with ⟨cat, hcat⟩
        rw [hcat, hqt, hagent]
        show ∃ p, Except.ok (removeBang (DecodeCID.composeReply "VERBOSE"
          (pySlice 4 6 CID) (pySlice 1 4 CID) row.2.1 "Unknown user/zone/agent"
          cat qt)) = Except.ok (p ++ "Unknown user/zone/agent")
        unfold DecodeCID.composeReply
        rw [if_pos rfl]
        exact ⟨removeBang ("Partition:" ++ pySlice 4 6 CID ++ ", " ++ cat ++ ", " ++
          qt ++ ":" ++ pySlice 1 4 CID ++ " " ++ row.2.1 ++ ", "),
          by rw [removeBang_append]; rfl⟩
      · subst hN
        rw [if_neg (by decide), if_pos rfl, hqt, hagent]
        show ∃ p, Except.ok (removeBang (DecodeCID.composeReply "NORMAL"
          (pySlice 4 6 CID) (pySlice 1 4 CID) row.2.1 "Unknown user/zone/agent"
          "" qt)) = Except.ok (p ++ "Unknown user/zone/agent")
        unfold DecodeCID.composeReply
        rw [if_neg (by decide), if_pos rfl]
        exact ⟨removeBang ("Partition:" ++ pySlice 4 6 CID ++ ", " ++ qt ++ ":" ++
          pySlice 1 4 CID ++ " " ++ row.2.1 ++ ", "),
          by rw [removeBang_append]; rfl⟩
  · intro decodeLevel users zones CID q row hq hrow hVN hqnone
    rw [getDescriptionE_found decodeLevel users zones CID q row hq hrow]
    rcases hVN with hV | hN
    · subst hV
      rw [if_pos rfl]
      cases hcat : lookupTab DecodeCID.CID_EventCategory row.1 with
      | none => rw [hqnone]
      | some cat => rw [hqnone]
    · subst hN
      rw [if_neg (by decide), if_pos rfl, hqnone]

/-- C3 (counterexample): the 10-digit code `0131010990` has a known event
code (131), an agent id (099) absent from the default zones dictionary, and
the qualifier digit `0`, which is not a key of the event's qualifier group;
at normal verbosity `getDescription` returns the fixed string `Unable to
decode CID`, not a description containing the unknown-agent fallback text,
contrary to the claim — and it does not raise. -/
theorem C3_counterexample :
    DecodeCID.getDescriptionE "NORMAL" DecodeCID.users DecodeCID.zones "0131010990" =
      .ok "Unable to decode CID" ∧
    lookupTab DecodeCID.zones (pySlice 6 9 "0131010990") = none ∧
    ¬(∃ p, DecodeCID.getDescriptionE "NORMAL" DecodeCID.users DecodeCID.zones
      "0131010990" = .ok (p ++ "Unknown user/zone/agent")) := by
  refine ⟨rfl, rfl, ?_⟩
  rintro ⟨p, hp⟩
  have h1 : DecodeCID.getDescriptionE "NORMAL" DecodeCID.users DecodeCID.zones
      "0131010990" = .ok "Unable to decode CID" := rfl
  rw [h1] at hp
  have h2 : ("Unable to decode CID" : String) = p ++ "Unknown user/zone/agent" := by
    injection hp
  have h3 : ("Unable to decode CID" : String).data.length =
      (p ++ "Unknown user/zone/agent").data.length := by rw [← h2]
  rw [String.data_append, List.length_append] at h3
  simp at h3

/-- Witness for `C3_getDescription_total_fallbacks` at concrete codes: a
known code decodes, an unknown event code yields its fallback string, an
unknown agent with a valid qualifier composes a reply ending in the
unknown-agent fallback, and an unrecognized qualifier digit yields the
fixed undecodable string. -/
theorem C3_getDescription_total_fallbacks_witness :
    (∃ s, DecodeCID.getDescriptionE "NORMAL" DecodeCID.users DecodeCID.zones
      "1373010010" = .ok s) ∧
    DecodeCID.getDescriptionE "NORMAL" DecodeCID.users DecodeCID.zones "1998010010" =
      .ok ("No description available for CID event code " ++ pySlice 1 4 "1998010010") ∧
    (∃ p, DecodeCID.getDescriptionE "NORMAL" DecodeCID.users DecodeCID.zones
      "1131010990" = .ok (p ++ "Unknown user/zone/agent")) ∧
    DecodeCID.getDescriptionE "NORMAL" DecodeCID.users DecodeCID.zones "0131010990" =
      .ok "Unable to decode CID" := by
  have h := C3_getDescription_total_fallbacks
  refine ⟨h.1 "NORMAL" DecodeCID.users DecodeCID.zones "1373010010" (by decide),
    h.2.1 "NORMAL" DecodeCID.users DecodeCID.zones "1998010010" (by decide) (by rfl),
    h.2.2.1 "NORMAL" DecodeCID.users DecodeCID.zones "1131010990" '1'
      ("D", "Perimeter", "Z", "a") (by rfl) (by rfl) (Or.inr ⟨by rfl, by rfl⟩)
      (Or.inr ⟨Or.inr rfl, Or.inl rfl⟩),
    h.2.2.2 "NORMAL" DecodeCID.users DecodeCID.zones "0131010990" '0'
      ("D", "Perimeter", "Z", "a") (by rfl) (by rfl) (Or.inr rfl) (by rfl)⟩
